import Mathlib

/-
Shallow embedding of the restoapp reporting core: the Poster API gateway
(src/reports/poster_client.py) and the daily pipeline of
src/reports/services.py (import_daily, scan_anomalies, generate_insights,
daily_summary_by_spot), over the Django models of src/reports/models.py.

Modelling conventions:
- JSON payloads are the inductive `Json`; Python numbers (int and float
  merged) are exact rationals, so arithmetic on payload values is exact.
- Monetary fields are unbounded integers in minor units, matching Python ints.
- Timestamps are the raw millisecond integers produced by `_parse_ms`; the
  calendar date of a timestamp is its UTC day number (`msDay`), standing for
  Django's `date_start__date` lookup.
- Fallible Python code is modelled in `Except ImpErr`: `ImpErr.apiError` is
  the `PosterAPIError` that the importer propagates for the two required
  fetches, `ImpErr.pyError` is any other uncaught exception raised while
  processing a payload of an unexpected shape (`AttributeError`,
  `TypeError`, `ValueError`).
- Django table contents are lists of rows; `update_or_create` is `upsertBy`:
  replace the row holding the key in place, else append; `bulk_create`
  appends; `filter(...).delete()` is `List.filter` with the negated
  condition.
-/

inductive Json where
  | null : Json
  | bool : Bool → Json
  | num : ℚ → Json
  | str : String → Json
  | arr : List Json → Json
  | obj : List (String × Json) → Json
deriving Repr

mutual

/-- Python `==` on JSON values, as used by the tuple-membership test of
`scan_anomalies`. (The Python equality `True == 1` is not reflected for the
`bool`/`num` cross case; every comparison the code performs has a string or
`None` on one side, where this function agrees with Python.) -/
def Json.beq : Json → Json → Bool
  | .null, .null => true
  | .bool a, .bool b => a == b
  | .num a, .num b => a == b
  | .str a, .str b => a == b
  | .arr a, .arr b => Json.beqList a b
  | .obj a, .obj b => Json.beqObj a b
  | _, _ => false

def Json.beqList : List Json → List Json → Bool
  | [], [] => true
  | a :: as, b :: bs => Json.beq a b && Json.beqList as bs
  | _, _ => false

def Json.beqObj : List (String × Json) → List (String × Json) → Bool
  | [], [] => true
  | (ka, va) :: as, (kb, vb) :: bs => ka == kb && Json.beq va vb && Json.beqObj as bs
  | _, _ => false

end

/-- Python `isinstance(x, dict)`. -/
def Json.isObj : Json → Bool
  | .obj _ => true
  | _ => false

/-- Python `x is None` (a stored JSON null and an absent key both read back
as `None` through `dict.get`). -/
def Json.isNull : Json → Bool
  | .null => true
  | _ => false

/-- Python `d.get(k)` on a value known to be a dict: the stored value, or
`None` when the key is missing. -/
def Json.objGet? : Json → String → Option Json
  | .obj kvs, k => kvs.lookup k
  | _, _ => none

def Json.objGet (j : Json) (k : String) : Json := (j.objGet? k).getD Json.null

/-- Python truthiness of a JSON value. -/
def pyTruthy : Json → Bool
  | .null => false
  | .bool b => b
  | .num q => q != 0
  | .str s => s != ""
  | .arr l => !l.isEmpty
  | .obj l => !l.isEmpty

/-- Python `a or b`. -/
def pyOr (a b : Json) : Json := if pyTruthy a then a else b

/-- Python `str(v)`. The rendering of lists and dicts abstracts Python's
repr; the code only ever applies `str` to scalar payload fields
(identifiers, names, history types), where this agrees with Python. -/
def pyStr : Json → String
  | .null => "None"
  | .bool true => "True"
  | .bool false => "False"
  | .num q => if q.den = 1 then toString q.num else toString q
  | .str s => s
  | .arr _ => "<list>"
  | .obj _ => "<dict>"

/-- The ubiquitous `str(v or "")` idiom of services.py. -/
def strOrEmpty (v : Json) : String := if pyTruthy v then pyStr v else ""

def natOfDigits (cs : List Char) : Nat := cs.foldl (fun n c => n * 10 + (c.toNat - 48)) 0

def allDigits (cs : List Char) : Bool := cs.all Char.isDigit

/-- Python `int(s)` on a string: optional sign and decimal digits, else
`ValueError` (underscore separators are outside the model). -/
def pyIntOfStr? (s : String) : Option Int :=
  let core : List Char → Option Nat := fun cs =>
    if cs ≠ [] ∧ allDigits cs then some (natOfDigits cs) else none
  match s.trim.data with
  | '+' :: rest => (core rest).map (fun n => (n : Int))
  | '-' :: rest => (core rest).map (fun n => -(n : Int))
  | cs => (core cs).map (fun n => (n : Int))

/-- Python `float(s)` on a string: optional sign, digits with an optional
decimal point (exponent, `inf` and `nan` forms are outside the model). -/
def pyFloatOfStr? (s : String) : Option ℚ :=
  let parts : List Char → Option ℚ := fun cs =>
    match cs.splitOn '.' with
    | [ip] => if ip ≠ [] ∧ allDigits ip then some (natOfDigits ip : ℚ) else none
    | [ip, fp] =>
        if allDigits ip ∧ allDigits fp ∧ (ip ≠ [] ∨ fp ≠ []) then
          some ((natOfDigits ip : ℚ) + (natOfDigits fp : ℚ) / ((10 : ℚ) ^ fp.length))
        else none
    | _ => none
  match s.trim.data with
  | '+' :: rest => parts rest
  | '-' :: rest => (parts rest).map Neg.neg
  | cs => parts cs

/-- Truncation toward zero, Python `int(x)` on a number. -/
def ratTrunc (q : ℚ) : Int := if 0 ≤ q then ⌊q⌋ else ⌈q⌉

/-- Python `int(v)`: `none` means the `TypeError`/`ValueError` Python would
raise. -/
def pyInt? : Json → Option Int
  | .null => none
  | .bool b => some (if b then 1 else 0)
  | .num q => some (ratTrunc q)
  | .str s => pyIntOfStr? s
  | .arr _ => none
  | .obj _ => none

/-- Python `float(v)`: `none` means the `TypeError`/`ValueError` Python
would raise. -/
def pyFloat? : Json → Option ℚ
  | .null => none
  | .bool b => some (if b then 1 else 0)
  | .num q => some q
  | .str s => pyFloatOfStr? s
  | .arr _ => none
  | .obj _ => none

/-- `_safe_int` of services.py: `int(value)` with `TypeError`/`ValueError`
mapped to 0. -/
def safe_int (v : Json) : Int := (pyInt? v).getD 0

/-- Python `int(a / b)` for ints `a`, `b` with `b ≠ 0`: the exact quotient
truncated toward zero (float division is modelled as exact). -/
def intDivTrunc (a b : Int) : Int := Int.tdiv a b

/-- Python `round(q)` on an exact value: round half to even. -/
def roundHalfEven (q : ℚ) : Int :=
  if q - ⌊q⌋ < 1/2 then ⌊q⌋
  else if (1 : ℚ)/2 < q - ⌊q⌋ then ⌊q⌋ + 1
  else if ⌊q⌋ % 2 = 0 then ⌊q⌋ else ⌊q⌋ + 1

/-- `_parse_ms` of services.py: keep the millisecond epoch value when it is
numeric and positive, else absent (the conversion to a datetime is injective
and monotone, so the raw milliseconds stand for the stored timestamp). -/
def parse_ms (v : Json) : Option Int :=
  match pyInt? v with
  | none => none
  | some ms => if ms ≤ 0 then none else some ms

/-- UTC day number of a millisecond timestamp, standing for the
`__date` lookup on a stored timestamp. -/
def msDay (ms : Int) : Int := Int.fdiv ms 86400000

def lowChar (c : Char) : Char :=
  if 'A' ≤ c ∧ c ≤ 'Z' then Char.ofNat (c.toNat + 32) else c

/-- Python `s.lower()` (ASCII range; the keyword set it is compared against
is ASCII). -/
def lowStr (s : String) : String := String.mk (s.data.map lowChar)

def leadsWith : List Char → List Char → Bool
  | [], _ => true
  | _ :: _, [] => false
  | a :: as, b :: bs => a == b && leadsWith as bs

def hasSubAux (k : List Char) : List Char → Bool
  | [] => leadsWith k []
  | c :: rest => leadsWith k (c :: rest) || hasSubAux k rest

/-- Python `k in t` on strings: substring containment. -/
def hasSubstr (t k : String) : Bool := hasSubAux k.data t.data

inductive ImpErr where
  | apiError : ImpErr
  | pyError : ImpErr
deriving DecidableEq, Repr

def emptyObj : Json := Json.obj []

structure TransactionRow where
  transaction_id : String
  date_start : Option Int
  date_close : Option Int
  status : Option Int
  sum : Int
  payed_sum : Int
  payed_cash : Int
  payed_card : Int
  payed_bonus : Int
  payed_third_party : Int
  payed_cert : Int
  spot_id : String
  table_id : String
  user_id : String
  client_id : String
  service_mode : String
  processing_status : String
  raw : Json
deriving Repr

structure SpotRow where
  spot_id : String
  name : String
deriving Repr

structure DailyReportRow where
  date : Int
  transactions_count : Int
  revenue : Int
  avg_check : Int
  raw_transactions : Json
  raw_payments : Json
  raw_products_sales : Json
deriving Repr

structure DataIssueRow where
  date : Int
  issue_type : String
  severity : Int
  message : String
  context : Json
  ignored : Bool
deriving Repr

structure InsightRow where
  date : Int
  title : String
  severity : Int
  details : String
deriving Repr

structure Db where
  transactions : List TransactionRow
  spots : List SpotRow
  dailyReports : List DailyReportRow
  paymentsReports : List (Int × Json)
  productsReports : List (Int × Json)
  spotsReports : List (Int × Json)
  dataIssues : List DataIssueRow
  insights : List InsightRow
deriving Repr

/-- Django `update_or_create`: replace the keyed row in place, else append. -/
def upsertBy {α : Type} (keyHit : α → Bool) (row : α) (l : List α) : List α :=
  if l.any keyHit then l.map (fun r => if keyHit r then row else r) else l ++ [row]

def upsertDaily (l : List DailyReportRow) (row : DailyReportRow) : List DailyReportRow :=
  upsertBy (fun r => r.date == row.date) row l

def lookupDaily (l : List DailyReportRow) (d : Int) : Option DailyReportRow :=
  l.find? (fun r => r.date == d)

def upsertRaw (l : List (Int × Json)) (d : Int) (raw : Json) : List (Int × Json) :=
  upsertBy (fun p => p.1 == d) (d, raw) l

def lookupRaw (l : List (Int × Json)) (d : Int) : Option Json :=
  (l.find? (fun p => p.1 == d)).map (fun p => p.2)

def upsertSpot (l : List SpotRow) (sid nm : String) : List SpotRow :=
  upsertBy (fun r => r.spot_id == sid) { spot_id := sid, name := nm } l

/-- `_extract_transactions` of services.py. -/
def extract_transactions (data : Json) : List Json :=
  if data.isObj then
    match data.objGet "response" with
    | Json.arr l => l
    | _ => []
  else []

/-- The generator sum of line 101: `sum(_safe_int(item.get("sum")) for item
in items)`; `item.get` on a non-dict item raises `AttributeError`. -/
def sumsOf : List Json → Except ImpErr Int
  | [] => .ok 0
  | it :: rest =>
    if it.isObj then
      match sumsOf rest with
      | .ok s => .ok (safe_int (it.objGet "sum") + s)
      | .error e => .error e
    else .error ImpErr.pyError

/-- `int(revenue / transactions_count) if transactions_count else 0`. -/
def derive (rev cnt : Int) : Int := if cnt = 0 then 0 else intDivTrunc rev cnt

def txIdStr (it : Json) : String := strOrEmpty (it.objGet "transaction_id")

/-- The `defaults` dict of the Transaction upsert (lines 108-129). -/
def txRowOf (it : Json) : TransactionRow :=
  { transaction_id := txIdStr it
    date_start := parse_ms (it.objGet "date_start")
    date_close := parse_ms (it.objGet "date_close")
    status := some (safe_int (it.objGet "status"))
    sum := safe_int (it.objGet "sum")
    payed_sum := safe_int (it.objGet "payed_sum")
    payed_cash := safe_int (it.objGet "payed_cash")
    payed_card := safe_int (it.objGet "payed_card")
    payed_bonus := safe_int (it.objGet "payed_bonus")
    payed_third_party := safe_int (it.objGet "payed_third_party")
    payed_cert := safe_int (it.objGet "payed_cert")
    spot_id := strOrEmpty (it.objGet "spot_id")
    table_id := strOrEmpty (it.objGet "table_id")
    user_id := strOrEmpty (it.objGet "user_id")
    client_id := strOrEmpty (it.objGet "client_id")
    service_mode := strOrEmpty (it.objGet "service_mode")
    processing_status := strOrEmpty (it.objGet "processing_status")
    raw := it }

/-- The per-item upsert loop of lines 104-129: skip items without an
identifier, upsert the rest keyed by `transaction_id`. -/
def upsertTransactions : List TransactionRow → List Json → Except ImpErr (List TransactionRow)
  | ts, [] => .ok ts
  | ts, it :: rest =>
    if it.isObj then
      if txIdStr it = "" then upsertTransactions ts rest
      else upsertTransactions (upsertBy (fun r => r.transaction_id == txIdStr it) (txRowOf it) ts) rest
    else .error ImpErr.pyError

/-- The spot-directory sync loop of lines 90-95. -/
def syncSpotRows : List SpotRow → List Json → Except ImpErr (List SpotRow)
  | sp, [] => .ok sp
  | sp, row :: rest =>
    if row.isObj then
      let sid := strOrEmpty (row.objGet "spot_id")
      let nm := strOrEmpty (row.objGet "name")
      if sid ≠ "" ∧ nm ≠ "" then syncSpotRows (upsertSpot sp sid nm) rest
      else syncSpotRows sp rest
    else .error ImpErr.pyError

/-- Lines 87-97: fetch the spot directory, upserting Spots; a
`PosterAPIError` is swallowed (`except ... pass`), any other exception
propagates. -/
def syncSpots (db : Db) (listR : Except Unit Json) : Except ImpErr Db :=
  match listR with
  | .error _ => .ok db
  | .ok v =>
    if v.isObj then
      match v.objGet "response" with
      | Json.arr rows =>
        match syncSpotRows db.spots rows with
        | .ok sp => .ok { db with spots := sp }
        | .error e => .error e
      | _ => .ok db
    else .ok db

/-- The per-row accumulation of reconciliation case 2 (lines 163-167). -/
def listTotals : List Json → Except ImpErr (Int × Int)
  | [] => .ok (0, 0)
  | row :: rest =>
    if row.isObj then
      match listTotals rest with
      | .ok rc => .ok (safe_int (pyOr (row.objGet "revenue") (row.objGet "sum")) + rc.1,
                        safe_int (pyOr (pyOr (row.objGet "transactions_count") (row.objGet "count")) (row.objGet "clients")) + rc.2)
      | .error e => .error e
    else .error ImpErr.pyError

/-- The transaction-count source of reconciliation case 1 (line 149). -/
def dictCount (response : Json) : Int :=
  safe_int (pyOr (response.objGet "clients") (response.objGet "transactions_count"))

/-- The average-check of reconciliation case 1 (lines 153-160): the
`middle_invoice` field when present and parseable, else re-derived. -/
def dictAvg (response : Json) (rev2 total_tx : Int) : Int :=
  if (response.objGet "middle_invoice").isNull then derive rev2 total_tx
  else
    match pyFloat? (response.objGet "middle_invoice") with
    | some m => roundHalfEven (m * 100)
    | none => derive rev2 total_tx

/-- Reconciliation step of lines 143-171: prefer the official spots-sales
totals over the raw per-transaction figures `(rev, cnt, avg)`. -/
def reconcile (spots_sales : Json) (rev cnt avg : Int) : Except ImpErr (Int × Int × Int) :=
  if spots_sales.isObj then
    if (spots_sales.objGet "response").isObj
        && !((spots_sales.objGet "response").objGet "revenue").isNull then
      match pyFloat? (pyOr ((spots_sales.objGet "response").objGet "revenue") (Json.num 0)) with
      | none => .error ImpErr.pyError
      | some q =>
        if 0 ≤ q then
          .ok (roundHalfEven (q * 100), dictCount (spots_sales.objGet "response"),
               dictAvg (spots_sales.objGet "response") (roundHalfEven (q * 100))
                 (dictCount (spots_sales.objGet "response")))
        else .ok (rev, cnt, avg)
    else
      match spots_sales.objGet "response" with
      | Json.arr rows =>
        match listTotals rows with
        | .ok rc => if 0 ≤ rc.1 then .ok (rc.1, rc.2, derive rc.1 rc.2) else .ok (rev, cnt, avg)
        | .error e => .error e
      | _ => .ok (rev, cnt, avg)
  else .ok (rev, cnt, avg)

/-- The payload an optional best-effort fetch contributes: the response on
success, `{}` when the `PosterAPIError` was swallowed. -/
def optVal : Except Unit Json → Json
  | .ok v => v
  | .error _ => emptyObj

/-- The daily-report row of the upsert at lines 173-183. -/
def mkDailyRow (d : Int) (rca : Int × Int × Int)
    (transactions payments products_sales : Json) : DailyReportRow :=
  { date := d, transactions_count := rca.2.1, revenue := rca.1, avg_check := rca.2.2,
    raw_transactions := transactions, raw_payments := payments,
    raw_products_sales := products_sales }

/-- The products-sales payload entering the import: fetched only when
requested, degraded to `{}` on a swallowed error (lines 67-75). -/
def productsVal (incl : Bool) (prodR : Except Unit Json) : Json :=
  if incl then optVal prodR else emptyObj

/-- Lines 134-141: ProductsSalesReport / SpotsSalesReport rows are written
only when their payload is truthy. -/
def storeOptional (db : Db) (d : Int) (products_sales spots_sales : Json) : Db :=
  let db4 :=
    if pyTruthy products_sales then
      { db with productsReports := upsertRaw db.productsReports d products_sales }
    else db
  if pyTruthy spots_sales then
    { db4 with spotsReports := upsertRaw db4.spotsReports d spots_sales }
  else db4

/-- The pure tail of the import once all fallible steps are done: store the
upserted transactions, the PaymentsReport row (line 131), the optional
aggregate rows, and the DailyReport row with the reconciled figures. -/
def importFinish (db1 : Db) (d : Int) (ts : List TransactionRow)
    (transactions payments products_sales spots_sales : Json) (rca : Int × Int × Int) : Db :=
  let db3 := { db1 with
    transactions := ts
    paymentsReports := upsertRaw db1.paymentsReports d payments }
  let db5 := storeOptional db3 d products_sales spots_sales
  let row := mkDailyRow d rca transactions payments products_sales
  { db5 with dailyReports := upsertDaily db5.dailyReports row }

/-- `import_daily` of services.py (lines 50-185). The five fetch results are
parameters (`Except Unit Json`; `.error` is the fetch raising
`PosterAPIError`): the two required fetches propagate as `ImpErr.apiError`
before any write, the three optional ones degrade. Returns the updated
store and the final `transactions_count`. -/
def importDaily (db : Db) (d : Int)
    (txR payR prodR spotsR listR : Except Unit Json) (incl : Bool) :
    Except ImpErr (Db × Int) :=
  match txR with
  | .error _ => .error ImpErr.apiError
  | .ok transactions =>
    match payR with
    | .error _ => .error ImpErr.apiError
    | .ok payments =>
      match syncSpots db listR with
      | .error e => .error e
      | .ok db1 =>
        match sumsOf (extract_transactions transactions) with
        | .error e => .error e
        | .ok revenue =>
          match upsertTransactions db1.transactions (extract_transactions transactions) with
          | .error e => .error e
          | .ok ts =>
            match reconcile (optVal spotsR) revenue
                ((extract_transactions transactions).length : Int)
                (derive revenue ((extract_transactions transactions).length : Int)) with
            | .error e => .error e
            | .ok rca =>
              .ok (importFinish db1 d ts transactions payments
                     (productsVal incl prodR) (optVal spotsR) rca, rca.2.1)

/-- The `date_start__date = report_date` queryset condition. -/
def onDate (d : Int) (t : TransactionRow) : Bool :=
  match t.date_start with
  | some ms => msDay ms == d
  | none => false

def txOn (db : Db) (d : Int) : List TransactionRow := db.transactions.filter (onDate d)

/-- `(issue.context or {}).get("transaction_id")` of line 193: a falsy
context reads as `{}`; `.get` on a truthy non-dict context raises. -/
def ignoredPairVal (c : Json) : Except ImpErr Json :=
  let c2 := if pyTruthy c then c else emptyObj
  if c2.isObj then .ok (c2.objGet "transaction_id") else .error ImpErr.pyError

def pairsOfIssues : List DataIssueRow → Except ImpErr (List (String × Json))
  | [] => .ok []
  | r :: rest =>
    match ignoredPairVal r.context with
    | .error e => .error e
    | .ok v =>
      match pairsOfIssues rest with
      | .error e => .error e
      | .ok ps => .ok ((r.issue_type, v) :: ps)

/-- The ignore set of lines 190-196: `(issue_type, transaction-id)` pairs of
the date's issues a human marked ignored. -/
def ignoredPairsOf (db : Db) (d : Int) : Except ImpErr (List (String × Json)) :=
  pairsOfIssues (db.dataIssues.filter (fun r => r.date == d && r.ignored))

/-- Python tuple membership `(t, v) in existing_ignored`; the left component
is always a Python string (or `None`, encoded `Json.null`). -/
def pairMem (ps : List (String × Json)) (t : String) (v : Json) : Bool :=
  ps.any (fun p => p.1 == t && Json.beq p.2 v)

/-- The transaction-id value later recoverable from an issue's context, as
line 193 extracts it (total on the dict contexts the scanner itself builds). -/
def ctxTxVal (c : Json) : Json := if c.isObj then c.objGet "transaction_id" else Json.null

/-- Rendering of `f"{sum/100:.2f} €"` for an integer amount of cents. -/
def eurStr (c : Int) : String :=
  let a := c.natAbs
  let fr := a % 100
  let fr2 := if fr < 10 then "0" ++ toString fr else toString fr
  (if c < 0 then "-" else "") ++ toString (a / 100) ++ "." ++ fr2 ++ " €"

/-- Abstraction of `timezone.localtime(when).strftime("%Y-%m-%d %H:%M")`:
an injective rendering of the timestamp (the textual calendar form is
presentation-only), em-dash when absent, as in line 251. -/
def whenText : Option Int → String
  | none => "—"
  | some ms => toString ms

def payedParts (tx : TransactionRow) : Int :=
  tx.payed_cash + tx.payed_card + tx.payed_bonus + tx.payed_third_party + tx.payed_cert

def zeroSumIssue (d : Int) (tx : TransactionRow) : DataIssueRow :=
  { date := d, issue_type := "zero_or_negative_sum", severity := 2,
    message := "Чек закрыт с нулевой/отрицательной суммой: " ++ tx.transaction_id,
    context := Json.obj [("transaction_id", Json.str tx.transaction_id), ("sum", Json.num (tx.sum : ℚ))],
    ignored := false }

def mismatchIssue (d : Int) (tx : TransactionRow) : DataIssueRow :=
  { date := d, issue_type := "payment_mismatch", severity := 2,
    message := "Несоответствие оплат по чеку: " ++ tx.transaction_id,
    context := Json.obj [("transaction_id", Json.str tx.transaction_id),
      ("payed_sum", Json.num (tx.payed_sum : ℚ)), ("payed_parts", Json.num ((payedParts tx) : ℚ))],
    ignored := false }

def moveKeywords : List String := ["transfer", "move", "change_table", "change table", "change_table_id"]

/-- The history scan of lines 240-245, with the early `break`. -/
def movedOf : List Json → Except ImpErr Bool
  | [] => .ok false
  | h :: rest =>
    if h.isObj then
      if moveKeywords.any (fun k => hasSubstr (lowStr (strOrEmpty (h.objGet "type_history"))) k) then .ok true
      else movedOf rest
    else .error ImpErr.pyError

def txMoved (tx : TransactionRow) : Except ImpErr Bool :=
  match (if tx.raw.isObj then tx.raw.objGet "history" else Json.null) with
  | Json.arr l => movedOf l
  | _ => .ok false

def waiterOf (raw : Json) : Json :=
  if raw.isObj then pyOr (pyOr (raw.objGet "name") (raw.objGet "waiter")) (raw.objGet "user_name")
  else Json.null

def strOrDash (v : Json) : String := if pyTruthy v then pyStr v else "—"

def moveIssue (d : Int) (tx : TransactionRow) : DataIssueRow :=
  let w := waiterOf tx.raw
  let wt := whenText (tx.date_close.or tx.date_start)
  { date := d, issue_type := "table_move", severity := 1,
    message := "Перенос на другой стол: чек " ++ tx.transaction_id ++ ", официант " ++ strOrDash w
      ++ ", время " ++ wt ++ ", сумма " ++ eurStr tx.sum,
    context := Json.obj [("transaction_id", Json.str tx.transaction_id), ("waiter", w),
      ("time", Json.str wt), ("sum", Json.num (tx.sum : ℚ))],
    ignored := false }

/-- The issues one transaction contributes (lines 199-269), each suppressed
when its `(type, id)` pair sits in the ignore set. -/
def issuesForTx (ps : List (String × Json)) (d : Int) (tx : TransactionRow) (moved : Bool) :
    List DataIssueRow :=
  (if tx.status = some 2 ∧ tx.sum ≤ 0 ∧ pairMem ps "zero_or_negative_sum" (Json.str tx.transaction_id) = false
   then [zeroSumIssue d tx] else [])
  ++ (if 0 < tx.payed_sum ∧ payedParts tx ≠ tx.payed_sum ∧ pairMem ps "payment_mismatch" (Json.str tx.transaction_id) = false
      then [mismatchIssue d tx] else [])
  ++ (if moved = true ∧ pairMem ps "table_move" (Json.str tx.transaction_id) = false
      then [moveIssue d tx] else [])

def txIssues (ps : List (String × Json)) (d : Int) : List TransactionRow → Except ImpErr (List DataIssueRow)
  | [] => .ok []
  | tx :: rest =>
    match txMoved tx with
    | .error e => .error e
    | .ok moved =>
      match txIssues ps d rest with
      | .error e => .error e
      | .ok more => .ok (issuesForTx ps d tx moved ++ more)

def noTxIssue (d : Int) : DataIssueRow :=
  { date := d, issue_type := "no_transactions", severity := 1,
    message := "Нет чеков за день", context := emptyObj, ignored := false }

/-- Lines 271-282: the `no_transactions` notice when the day's rollup shows
a zero count. -/
def noTxList (ps : List (String × Json)) (db : Db) (d : Int) : List DataIssueRow :=
  match lookupDaily db.dailyReports d with
  | some r =>
    if r.transactions_count = 0 ∧ pairMem ps "no_transactions" Json.null = false
    then [noTxIssue d] else []
  | none => []

/-- The survivor condition of the delete at line 284: rows of another date,
and ignored rows of this date, stay. -/
def keepIssue (d : Int) (r : DataIssueRow) : Bool := !(r.date == d && !r.ignored)

/-- `scan_anomalies` of services.py (lines 188-286). -/
def scanAnomalies (db : Db) (d : Int) : Except ImpErr (Db × List DataIssueRow) :=
  match ignoredPairsOf db d with
  | .error e => .error e
  | .ok ps =>
    match txIssues ps d (txOn db d) with
    | .error e => .error e
    | .ok base =>
      let issues := base ++ noTxList ps db d
      .ok ({ db with dataIssues := db.dataIssues.filter (keepIssue d) ++ issues }, issues)

def revDropTitle : String := "Падение выручки"

def avgDropTitle : String := "Падение среднего чека"

def noSalesTitle : String := "Нет продаж"

/-- `(prev - current) / prev`, the drop fraction of lines 309 and 321
(Python float division, modelled exactly). -/
def dropFrac (prevV curV : Int) : ℚ := ((prevV : ℚ) - (curV : ℚ)) / (prevV : ℚ)

def pctStr (q : ℚ) : String := toString (ratTrunc (q * 100))

def noSalesRow (d : Int) : InsightRow :=
  { date := d, title := noSalesTitle, severity := 2,
    details := "За выбранный день нет чеков. Проверьте, работала ли касса." }

def revDropRow (d : Int) (q : ℚ) : InsightRow :=
  { date := d, title := revDropTitle, severity := 2,
    details := "Выручка упала на " ++ pctStr q ++ "% по сравнению с предыдущим днем." }

def avgDropRow (d : Int) (q : ℚ) : InsightRow :=
  { date := d, title := avgDropTitle, severity := 1,
    details := "Средний чек упал на " ++ pctStr q ++ "% по сравнению с предыдущим днем." }

/-- `DailyReport.objects.filter(date__lt=d).order_by("-date").first()`: the
report of greatest date strictly before `d` (dates are unique). -/
def prevDaily (db : Db) (d : Int) : Option DailyReportRow :=
  (db.dailyReports.filter (fun r => decide (r.date < d))).foldl
    (fun acc r =>
      match acc with
      | none => some r
      | some b => if b.date < r.date then some r else some b)
    none

/-- `generate_insights` of services.py (lines 289-334). The 30% threshold
`drop >= 0.3` is modelled with the exact rational 3/10; for the decimal
revenue figures at issue the float comparison agrees. -/
def generateInsights (db : Db) (d : Int) : Db × Int :=
  match lookupDaily db.dailyReports d with
  | none => (db, 0)
  | some cur =>
    let prev := prevDaily db d
    let i1 : List InsightRow := if cur.transactions_count = 0 then [noSalesRow d] else []
    let i2 : List InsightRow :=
      match prev with
      | some p =>
        if 0 < p.revenue ∧ (3 : ℚ)/10 ≤ dropFrac p.revenue cur.revenue
        then [revDropRow d (dropFrac p.revenue cur.revenue)] else []
      | none => []
    let i3 : List InsightRow :=
      match prev with
      | some p =>
        if 0 < p.avg_check ∧ (3 : ℚ)/10 ≤ dropFrac p.avg_check cur.avg_check
        then [avgDropRow d (dropFrac p.avg_check cur.avg_check)] else []
      | none => []
    let insights := i1 ++ i2 ++ i3
    ({ db with insights := db.insights.filter (fun r => !(r.date == d)) ++ insights },
     (insights.length : Int))

structure SummaryItem where
  transactions : Int
  revenue : Int
  returns : Int
  returns_sum : Int
deriving Repr

def emptyItem : SummaryItem := { transactions := 0, revenue := 0, returns := 0, returns_sum := 0 }

/-- Dict lookup on the summary mapping (the observer through which the
per-spot results are read). -/
def assocFind : List (String × SummaryItem) → String → Option SummaryItem
  | [], _ => none
  | p :: rest, k => if p.1 == k then some p.2 else assocFind rest k

/-- Python dict assignment `summary[k] = v`: overwrite in place, else append. -/
def assocSet (l : List (String × SummaryItem)) (k : String) (v : SummaryItem) :
    List (String × SummaryItem) :=
  if l.any (fun p => p.1 == k) then l.map (fun p => if p.1 == k then (k, v) else p)
  else l ++ [(k, v)]

/-- Python iteration `for row in rows`: lists give elements, strings give
characters, dicts give keys, anything else raises `TypeError`. -/
def pyIterE : Json → Except ImpErr (List Json)
  | .arr l => .ok l
  | .str s => .ok (s.data.map (fun c => Json.str (String.mk [c])))
  | .obj kvs => .ok (kvs.map (fun kv => Json.str kv.1))
  | _ => .error ImpErr.pyError

/-- One row's entry in the preferred branch of `daily_summary_by_spot`
(lines 352-357); the bare `int(...)` calls raise on non-numeric strings. -/
def prefItem? (row : Json) : Except ImpErr SummaryItem :=
  match pyInt? (pyOr (pyOr (row.objGet "transactions_count") (row.objGet "count")) (Json.num 0)) with
  | none => .error ImpErr.pyError
  | some t =>
    match pyInt? (pyOr (pyOr (row.objGet "revenue") (row.objGet "sum")) (Json.num 0)) with
    | none => .error ImpErr.pyError
    | some r =>
      match pyInt? (pyOr (row.objGet "returns_count") (Json.num 0)) with
      | none => .error ImpErr.pyError
      | some rc =>
        match pyInt? (pyOr (row.objGet "returns_sum") (Json.num 0)) with
        | none => .error ImpErr.pyError
        | some rs => .ok { transactions := t, revenue := r, returns := rc, returns_sum := rs }

/-- The preferred-source loop of lines 346-357. -/
def prefSummary : List Json → List (String × SummaryItem) → Except ImpErr (List (String × SummaryItem))
  | [], acc => .ok acc
  | row :: rest, acc =>
    if row.isObj then
      let sid := strOrEmpty (pyOr (row.objGet "spot_id") (row.objGet "id"))
      if sid = "" then prefSummary rest acc
      else
        match prefItem? row with
        | .error e => .error e
        | .ok item => prefSummary rest (assocSet acc sid item)
    else prefSummary rest acc

/-- Line 372: `tx.status == 3 or tx.sum < 0` classifies a return. -/
def isReturnTx (tx : TransactionRow) : Bool :=
  tx.status == some 3 || decide (tx.sum < 0)

/-- The per-transaction contribution of the fallback branch (lines 364-374). -/
def addTx (item : SummaryItem) (tx : TransactionRow) : SummaryItem :=
  { transactions := item.transactions + 1,
    revenue := item.revenue + tx.sum,
    returns := item.returns + (if isReturnTx tx then 1 else 0),
    returns_sum := item.returns_sum + (if isReturnTx tx then tx.sum else 0) }

def spotKey (tx : TransactionRow) : String := if tx.spot_id = "" then "unknown" else tx.spot_id

def bumpSpot (acc : List (String × SummaryItem)) (tx : TransactionRow) :
    List (String × SummaryItem) :=
  let k := spotKey tx
  if acc.any (fun p => p.1 == k) then
    acc.map (fun p => if p.1 == k then (k, addTx p.2 tx) else p)
  else acc ++ [(k, addTx emptyItem tx)]

/-- The transaction-derived fallback aggregation of lines 361-375. -/
def fallbackSummary (txs : List TransactionRow) : List (String × SummaryItem) :=
  txs.foldl bumpSpot []

/-- Lines 341-344: the per-spot rows of a stored aggregate payload —
`raw.get("response", [])`, descending into a `spots` member when the
response is a totals dict. -/
def spotRowsOf (raw : Json) : Json :=
  let rows0 := (raw.objGet? "response").getD (Json.arr [])
  if rows0.isObj then (rows0.objGet? "spots").getD (Json.arr []) else rows0

/-- `daily_summary_by_spot` of services.py (lines 337-375). -/
def dailySummaryBySpot (db : Db) (d : Int) : Except ImpErr (List (String × SummaryItem)) :=
  match lookupRaw db.spotsReports d with
  | some raw =>
    if raw.isObj then
      match pyIterE (spotRowsOf raw) with
      | .error e => .error e
      | .ok rows =>
        match prefSummary rows [] with
        | .error e => .error e
        | .ok s => if s.isEmpty then .ok (fallbackSummary (txOn db d)) else .ok s
    else .ok (fallbackSummary (txOn db d))
  | none => .ok (fallbackSummary (txOn db d))

structure GwSettings where
  base_url : String
  token : String
  auth_style : String
deriving Repr

inductive GwErr where
  | config : GwErr
  | api : GwErr
deriving DecidableEq, Repr

/-- Outcome of the `requests.request` transport call (redirect handling
included): either a raised `requests.RequestException`, or a final response
with its status and its body (`some j` when the body is valid JSON parsing
to `j`, `none` when `.json()` would raise `ValueError`). -/
inductive TransportResult where
  | exn : TransportResult
  | resp (status : Nat) (body : Option Json) : TransportResult

def settingsMissing (s : GwSettings) : Bool :=
  s.base_url == "" || s.token == "" || s.auth_style == ""

/-- `PosterClient.from_settings`: `PosterConfigError` when a required
setting is falsy. -/
def fromSettings (s : GwSettings) : Except GwErr GwSettings :=
  if settingsMissing s then .error GwErr.config else .ok s

/-- `PosterClient._apply_auth` (lines 47-66): three recognized styles, else
`PosterConfigError`. -/
def applyAuth (c : GwSettings) (params headers : List (String × String)) :
    Except GwErr (List (String × String) × List (String × String)) :=
  if c.auth_style = "query_token" then .ok (params ++ [("token", c.token)], headers)
  else if c.auth_style = "query_access_token" then .ok (params ++ [("access_token", c.token)], headers)
  else if c.auth_style = "bearer" then .ok (params, headers ++ [("Authorization", "Bearer " ++ c.token)])
  else .error GwErr.config

/-- `response.raise_for_status()` raises `requests.HTTPError` exactly for
the 4xx and 5xx status codes. -/
def raisesForStatus (st : Nat) : Bool := decide (400 ≤ st) && decide (st < 600)

/-- `PosterClient.request` (lines 71-101): apply auth, perform the
transport call, map `RequestException` (incl. `raise_for_status`) and JSON
parse failure to `PosterAPIError`, else return the parsed body. -/
def request (c : GwSettings) (params : List (String × String)) (t : TransportResult) :
    Except GwErr Json :=
  match applyAuth c params [] with
  | .error e => .error e
  | .ok _ =>
    match t with
    | .exn => .error GwErr.api
    | .resp st body =>
      if raisesForStatus st then .error GwErr.api
      else
        match body with
        | some j => .ok j
        | none => .error GwErr.api

/-- One API Gateway request as the surrounding layers perform it: build the
client from settings, then issue the request. -/
def gatewayCall (s : GwSettings) (params : List (String × String)) (t : TransportResult) :
    Except GwErr Json :=
  match fromSettings s with
  | .error e => .error e
  | .ok c => request c params t

theorem upsertBy_find {α : Type} (p : α → Bool) (row : α) (l : List α) (h : p row = true) :
    (upsertBy p row l).find? p = some row := by
  unfold upsertBy
  by_cases ha : l.any p = true
  · rw [if_pos ha]
    induction l with
    | nil => simp at ha
    | cons a as ih =>
      by_cases hpa : p a = true
      · simp [List.find?_cons, hpa, h]
      · simp only [List.map_cons, List.find?_cons]
        simp only [hpa, Bool.false_eq_true, if_false]
        apply ih
        simpa [List.any_cons, hpa] using ha
  · rw [if_neg ha]
    rw [List.find?_append]
    have hnone : l.find? p = none := by
      rw [List.find?_eq_none]
      intro x hx hpx
      exact ha (List.any_eq_true.mpr ⟨x, hx, hpx⟩)
    simp [hnone, List.find?_cons, h]

theorem upsertBy_mem {α : Type} (p : α → Bool) (row : α) (l : List α) :
    ∀ r ∈ upsertBy p row l, r ∈ l ∨ r = row := by
  unfold upsertBy
  intro r hr
  by_cases ha : l.any p = true
  · rw [if_pos ha] at hr
    rcases List.mem_map.mp hr with ⟨a, hal, haeq⟩
    by_cases hpa : p a = true
    · right; rw [if_pos hpa] at haeq; exact haeq.symm
    · left; rw [if_neg hpa] at haeq; exact haeq ▸ hal
  · rw [if_neg ha] at hr
    rcases List.mem_append.mp hr with h1 | h1
    · exact Or.inl h1
    · exact Or.inr (List.mem_singleton.mp h1)

def idsOf (ts : List TransactionRow) : List String := ts.map (fun r => r.transaction_id)

theorem idsOf_upsert (ts : List TransactionRow) (row : TransactionRow) :
    idsOf (upsertBy (fun r => r.transaction_id == row.transaction_id) row ts) =
      if row.transaction_id ∈ idsOf ts then idsOf ts else idsOf ts ++ [row.transaction_id] := by
  unfold upsertBy
  by_cases ha : ts.any (fun r => r.transaction_id == row.transaction_id) = true
  · rw [if_pos ha]
    have hmem : row.transaction_id ∈ idsOf ts := by
      rcases List.any_eq_true.mp ha with ⟨r, hrl, hr⟩
      have heq : r.transaction_id = row.transaction_id := by simpa using hr
      exact List.mem_map.mpr ⟨r, hrl, heq⟩
    rw [if_pos hmem]
    unfold idsOf
    rw [List.map_map]
    apply List.map_congr_left
    intro r _
    by_cases hpr : (r.transaction_id == row.transaction_id) = true
    · have : r.transaction_id = row.transaction_id := by simpa using hpr
      simp [Function.comp, hpr, this]
    · simp [Function.comp, hpr]
  · rw [if_neg ha]
    have hmem : row.transaction_id ∉ idsOf ts := by
      intro hmem
      rcases List.mem_map.mp hmem with ⟨r, hrl, hr⟩
      exact ha (List.any_eq_true.mpr ⟨r, hrl, by simpa using hr⟩)
    rw [if_neg hmem]
    unfold idsOf
    simp

theorem idsOf_upsertTx (ts : List TransactionRow) (it : Json) :
    idsOf (upsertBy (fun r => r.transaction_id == txIdStr it) (txRowOf it) ts) =
      if txIdStr it ∈ idsOf ts then idsOf ts else idsOf ts ++ [txIdStr it] :=
  idsOf_upsert ts (txRowOf it)

theorem upsertTransactions_ids (items : List Json) :
    ∀ ts ts2, upsertTransactions ts items = .ok ts2 →
      ∀ id, id ∈ idsOf ts2 ↔
        id ∈ idsOf ts ∨ ∃ it ∈ items, txIdStr it ≠ "" ∧ txIdStr it = id := by
  induction items with
  | nil =>
    intro ts ts2 h id
    simp only [upsertTransactions] at h
    injection h with h2
    subst h2
    simp
  | cons it rest ih =>
    intro ts ts2 h id
    simp only [upsertTransactions] at h
    by_cases hobj : it.isObj = true
    case neg =>
      rw [if_neg hobj] at h
      simp at h
    case pos =>
    rw [if_pos hobj] at h
    by_cases hid : txIdStr it = ""
    case pos =>
      rw [if_pos hid] at h
      rw [ih ts ts2 h id]
      constructor
      · rintro (h1 | ⟨it2, h2, h3⟩)
        · exact Or.inl h1
        · exact Or.inr ⟨it2, List.mem_cons_of_mem _ h2, h3⟩
      · rintro (h1 | ⟨it2, h2, h3, h4⟩)
        · exact Or.inl h1
        · rcases List.mem_cons.mp h2 with h5 | h5
          · exact absurd (h5 ▸ hid) h3
          · exact Or.inr ⟨it2, h5, h3, h4⟩
    case neg =>
      rw [if_neg hid] at h
      rw [ih _ ts2 h id, idsOf_upsertTx]
      by_cases hmem : txIdStr it ∈ idsOf ts
      · rw [if_pos hmem]
        constructor
        · rintro (h1 | ⟨it2, h2, h3⟩)
          · exact Or.inl h1
          · exact Or.inr ⟨it2, List.mem_cons_of_mem _ h2, h3⟩
        · rintro (h1 | ⟨it2, h2, h3, h4⟩)
          · exact Or.inl h1
          · rcases List.mem_cons.mp h2 with h5 | h5
            · subst h5
              exact Or.inl (h4 ▸ hmem)
            · exact Or.inr ⟨it2, h5, h3, h4⟩
      · rw [if_neg hmem]
        constructor
        · rintro (h1 | ⟨it2, h2, h3⟩)
          · rcases List.mem_append.mp h1 with h4 | h4
            · exact Or.inl h4
            · exact Or.inr ⟨it, List.mem_cons_self _ _, hid, (List.mem_singleton.mp h4).symm⟩
          · exact Or.inr ⟨it2, List.mem_cons_of_mem _ h2, h3⟩
        · rintro (h1 | ⟨it2, h2, h3, h4⟩)
          · exact Or.inl (List.mem_append.mpr (Or.inl h1))
          · rcases List.mem_cons.mp h2 with h5 | h5
            · subst h5
              exact Or.inl (List.mem_append.mpr (Or.inr (List.mem_singleton.mpr h4.symm)))
            · exact Or.inr ⟨it2, h5, h3, h4⟩

theorem upsertTransactions_nodup (items : List Json) :
    ∀ ts ts2, upsertTransactions ts items = .ok ts2 →
      (idsOf ts).Nodup → (idsOf ts2).Nodup := by
  induction items with
  | nil =>
    intro ts ts2 h hn
    simp only [upsertTransactions] at h
    injection h with h2
    subst h2
    exact hn
  | cons it rest ih =>
    intro ts ts2 h hn
    simp only [upsertTransactions] at h
    by_cases hobj : it.isObj = true
    case neg =>
      rw [if_neg hobj] at h
      simp at h
    case pos =>
    rw [if_pos hobj] at h
    by_cases hid : txIdStr it = ""
    · rw [if_pos hid] at h
      exact ih ts ts2 h hn
    · rw [if_neg hid] at h
      apply ih _ ts2 h
      rw [idsOf_upsertTx]
      by_cases hmem : txIdStr it ∈ idsOf ts
      · rw [if_pos hmem]
        exact hn
      · rw [if_neg hmem]
        simp [List.nodup_append, hn, List.disjoint_singleton, hmem]

theorem upsertTransactions_mem (items : List Json) :
    ∀ ts ts2, upsertTransactions ts items = .ok ts2 →
      ∀ r ∈ ts2, r ∈ ts ∨ ∃ it ∈ items, it.isObj = true ∧ txIdStr it ≠ "" ∧ r = txRowOf it := by
  induction items with
  | nil =>
    intro ts ts2 h r hr
    simp only [upsertTransactions] at h
    injection h with h2
    subst h2
    exact Or.inl hr
  | cons it rest ih =>
    intro ts ts2 h r hr
    simp only [upsertTransactions] at h
    by_cases hobj : it.isObj = true
    case neg =>
      rw [if_neg hobj] at h
      simp at h
    case pos =>
    rw [if_pos hobj] at h
    by_cases hid : txIdStr it = ""
    · rw [if_pos hid] at h
      rcases ih ts ts2 h r hr with h1 | ⟨it2, h2, h3⟩
      · exact Or.inl h1
      · exact Or.inr ⟨it2, List.mem_cons_of_mem _ h2, h3⟩
    · rw [if_neg hid] at h
      rcases ih _ ts2 h r hr with h1 | ⟨it2, h2, h3⟩
      · rcases upsertBy_mem _ _ _ r h1 with h4 | h4
        · exact Or.inl h4
        · exact Or.inr ⟨it, List.mem_cons_self _ _, hobj, hid, h4⟩
      · exact Or.inr ⟨it2, List.mem_cons_of_mem _ h2, h3⟩

theorem syncSpots_fields (db : Db) (listR : Except Unit Json) (db1 : Db)
    (h : syncSpots db listR = .ok db1) :
    db1.transactions = db.transactions ∧ db1.dailyReports = db.dailyReports ∧
    db1.paymentsReports = db.paymentsReports ∧ db1.productsReports = db.productsReports ∧
    db1.spotsReports = db.spotsReports ∧ db1.dataIssues = db.dataIssues ∧
    db1.insights = db.insights := by
  unfold syncSpots at h
  split at h
  · injection h with h2
    subst h2
    exact ⟨rfl, rfl, rfl, rfl, rfl, rfl, rfl⟩
  · split at h
    · split at h
      · split at h
        · injection h with h2
          subst h2
          exact ⟨rfl, rfl, rfl, rfl, rfl, rfl, rfl⟩
        · simp at h
      · injection h with h2
        subst h2
        exact ⟨rfl, rfl, rfl, rfl, rfl, rfl, rfl⟩
    · injection h with h2
      subst h2
      exact ⟨rfl, rfl, rfl, rfl, rfl, rfl, rfl⟩


theorem storeOptional_fields (db : Db) (d : Int) (p s : Json) :
    (storeOptional db d p s).transactions = db.transactions ∧
    (storeOptional db d p s).spots = db.spots ∧
    (storeOptional db d p s).dailyReports = db.dailyReports ∧
    (storeOptional db d p s).paymentsReports = db.paymentsReports ∧
    (storeOptional db d p s).dataIssues = db.dataIssues ∧
    (storeOptional db d p s).insights = db.insights := by
  unfold storeOptional
  by_cases hp : pyTruthy p = true <;> by_cases hs : pyTruthy s = true <;>
    simp [hp, hs]

theorem lookupDaily_upsert (l : List DailyReportRow) (row : DailyReportRow) :
    lookupDaily (upsertDaily l row) row.date = some row := by
  unfold lookupDaily upsertDaily
  exact upsertBy_find _ row l (by simp)

theorem importFinish_transactions (db1 : Db) (d : Int) (ts : List TransactionRow)
    (transactions payments p s : Json) (rca : Int × Int × Int) :
    (importFinish db1 d ts transactions payments p s rca).transactions = ts := by
  unfold importFinish
  exact (storeOptional_fields _ d p s).1

theorem importFinish_lookup (db1 : Db) (d : Int) (ts : List TransactionRow)
    (transactions payments p s : Json) (rca : Int × Int × Int) :
    lookupDaily (importFinish db1 d ts transactions payments p s rca).dailyReports d =
      some (mkDailyRow d rca transactions payments p) := by
  unfold importFinish
  exact lookupDaily_upsert _ _

/-- Decomposition of a successful import run: the required fetches
succeeded, each fallible stage succeeded, the stored transaction table is
the upsert result, and the DailyReport row for the date holds exactly the
reconciled figures over the raw per-transaction sums. -/
theorem importDaily_ok_parts (db : Db) (d : Int)
    (txR payR prodR spotsR listR : Except Unit Json) (incl : Bool)
    (db2 : Db) (n : Int)
    (h : importDaily db d txR payR prodR spotsR listR incl = .ok (db2, n)) :
    ∃ txV payV rev ts rca,
      txR = .ok txV ∧ payR = .ok payV ∧
      sumsOf (extract_transactions txV) = .ok rev ∧
      upsertTransactions db.transactions (extract_transactions txV) = .ok ts ∧
      db2.transactions = ts ∧
      reconcile (optVal spotsR) rev ((extract_transactions txV).length : Int)
        (derive rev ((extract_transactions txV).length : Int)) = .ok rca ∧
      n = rca.2.1 ∧
      lookupDaily db2.dailyReports d =
        some (mkDailyRow d rca txV payV (productsVal incl prodR)) := by
  unfold importDaily at h
  split at h
  · simp at h
  split at h
  · simp at h
  split at h
  case _ e heq =>
    simp at h
  case _ db1 hsync =>
  split at h
  case _ e heq =>
    simp at h
  case _ rev hsums =>
  split at h
  case _ e heq =>
    simp at h
  case _ ts hup =>
  split at h
  case _ e heq =>
    simp at h
  case _ rca hrec =>
    rcases syncSpots_fields _ _ _ hsync with ⟨htx, _, _, _, _, _, _⟩
    injection h with h2
    rw [Prod.mk.injEq] at h2
    rcases h2 with ⟨hdb2, hn⟩
    refine ⟨_, _, rev, ts, rca, rfl, rfl, hsums, ?_, ?_, hrec, hn.symm, ?_⟩
    · rw [htx] at hup
      exact hup
    · rw [← hdb2]
      exact importFinish_transactions _ _ _ _ _ _ _ _
    · rw [← hdb2]
      exact importFinish_lookup _ _ _ _ _ _ _ _

theorem intDivTrunc_eq_floor (a b : Int) (ha : 0 ≤ a) (hb : 0 < b) :
    intDivTrunc a b = ⌊(a : ℚ) / (b : ℚ)⌋ := by
  have h1 : a.tdiv b = a / b := Int.tdiv_eq_ediv ha hb.le
  have h3 := Rat.floor_intCast_div_natCast a b.toNat
  have hb2 : ((b.toNat : ℕ) : ℚ) = (b : ℚ) := by
    exact_mod_cast congrArg (fun z : ℤ => (z : ℚ)) (Int.toNat_of_nonneg hb.le)
  rw [hb2, Int.toNat_of_nonneg hb.le] at h3
  unfold intDivTrunc
  rw [h1, h3]

theorem reconcile_notObj (s : Json) (rev cnt avg : Int) (h : s.isObj = false) :
    reconcile s rev cnt avg = .ok (rev, cnt, avg) := by
  unfold reconcile
  rw [if_neg (by simp [h])]

theorem reconcile_raw (s : Json) (rev cnt avg : Int) (hobj : s.isObj = true)
    (hcond : ((s.objGet "response").isObj
      && !((s.objGet "response").objGet "revenue").isNull) = false)
    (harr : ∀ rows, s.objGet "response" ≠ Json.arr rows) :
    reconcile s rev cnt avg = .ok (rev, cnt, avg) := by
  unfold reconcile
  rw [if_pos hobj, if_neg (by simp [hcond])]
  cases hresp : s.objGet "response"
  case arr rows => exact absurd hresp (harr rows)
  all_goals rfl

theorem reconcile_dict (s : Json) (rev cnt avg : Int) (q : ℚ)
    (hobj : s.isObj = true)
    (hcond : ((s.objGet "response").isObj
      && !((s.objGet "response").objGet "revenue").isNull) = true)
    (hq : pyFloat? (pyOr ((s.objGet "response").objGet "revenue") (Json.num 0)) = some q) :
    reconcile s rev cnt avg =
      if 0 ≤ q then
        .ok (roundHalfEven (q * 100), dictCount (s.objGet "response"),
             dictAvg (s.objGet "response") (roundHalfEven (q * 100))
               (dictCount (s.objGet "response")))
      else .ok (rev, cnt, avg) := by
  unfold reconcile
  rw [if_pos hobj, if_pos hcond, hq]

theorem reconcile_list (s : Json) (rev cnt avg : Int) (rows : List Json) (tr tc : Int)
    (hobj : s.isObj = true)
    (hresp : s.objGet "response" = Json.arr rows)
    (htot : listTotals rows = .ok (tr, tc)) :
    reconcile s rev cnt avg =
      if 0 ≤ tr then .ok (tr, tc, derive tr tc) else .ok (rev, cnt, avg) := by
  unfold reconcile
  have hcond : ((s.objGet "response").isObj
      && !((s.objGet "response").objGet "revenue").isNull) = false := by
    rw [hresp]
    rfl
  rw [if_pos hobj, if_neg (by simp [hcond]), hresp]
  show (match listTotals rows with
    | Except.ok rc =>
      if 0 ≤ rc.1 then Except.ok (rc.1, rc.2, derive rc.1 rc.2) else Except.ok (rev, cnt, avg)
    | Except.error e => Except.error e) = _
  rw [htot]

theorem dictAvg_unusable (response : Json) (r c : Int)
    (h : pyFloat? (response.objGet "middle_invoice") = none ∨
      (response.objGet "middle_invoice").isNull = true) :
    dictAvg response r c = derive r c := by
  unfold dictAvg
  by_cases hn : (response.objGet "middle_invoice").isNull = true
  · rw [if_pos hn]
  · rw [if_neg hn]
    rcases h with h | h
    · rw [h]
    · exact absurd h hn

theorem issuesForTx_props (ps : List (String × Json)) (d : Int) (tx : TransactionRow)
    (moved : Bool) :
    ∀ r ∈ issuesForTx ps d tx moved,
      pairMem ps r.issue_type (ctxTxVal r.context) = false ∧ r.date = d ∧ r.ignored = false := by
  intro r hr
  unfold issuesForTx at hr
  rcases List.mem_append.mp hr with hr1 | hr1
  · rcases List.mem_append.mp hr1 with hr2 | hr2
    · by_cases hc : tx.status = some 2 ∧ tx.sum ≤ 0 ∧
        pairMem ps "zero_or_negative_sum" (Json.str tx.transaction_id) = false
      · rw [if_pos hc] at hr2
        rcases List.mem_singleton.mp hr2 with rfl
        exact ⟨hc.2.2, rfl, rfl⟩
      · rw [if_neg hc] at hr2
        simp at hr2
    · by_cases hc : 0 < tx.payed_sum ∧ payedParts tx ≠ tx.payed_sum ∧
        pairMem ps "payment_mismatch" (Json.str tx.transaction_id) = false
      · rw [if_pos hc] at hr2
        rcases List.mem_singleton.mp hr2 with rfl
        exact ⟨hc.2.2, rfl, rfl⟩
      · rw [if_neg hc] at hr2
        simp at hr2
  · by_cases hc : moved = true ∧ pairMem ps "table_move" (Json.str tx.transaction_id) = false
    · rw [if_pos hc] at hr1
      rcases List.mem_singleton.mp hr1 with rfl
      exact ⟨hc.2, rfl, rfl⟩
    · rw [if_neg hc] at hr1
      simp at hr1

theorem txIssues_props (ps : List (String × Json)) (d : Int) :
    ∀ txs base, txIssues ps d txs = .ok base →
      ∀ r ∈ base,
        pairMem ps r.issue_type (ctxTxVal r.context) = false ∧ r.date = d ∧ r.ignored = false := by
  intro txs
  induction txs with
  | nil =>
    intro base h r hr
    simp only [txIssues] at h
    injection h with h2
    subst h2
    simp at hr
  | cons tx rest ih =>
    intro base h r hr
    simp only [txIssues] at h
    split at h
    case _ e heq =>
      simp at h
    case _ moved hmoved =>
    split at h
    case _ e heq =>
      simp at h
    case _ more hmore =>
      injection h with h2
      subst h2
      rcases List.mem_append.mp hr with h1 | h1
      · exact issuesForTx_props ps d tx moved r h1
      · exact ih more hmore r h1

theorem noTxList_props (ps : List (String × Json)) (db : Db) (d : Int) :
    ∀ r ∈ noTxList ps db d,
      pairMem ps r.issue_type (ctxTxVal r.context) = false ∧ r.date = d ∧ r.ignored = false := by
  intro r hr
  unfold noTxList at hr
  split at hr
  case _ rep hrep =>
    by_cases hc : rep.transactions_count = 0 ∧ pairMem ps "no_transactions" Json.null = false
    · rw [if_pos hc] at hr
      rcases List.mem_singleton.mp hr with rfl
      exact ⟨hc.2, rfl, rfl⟩
    · rw [if_neg hc] at hr
      simp at hr
  case _ hrep =>
    simp at hr

/-- Shared decomposition of a successful anomaly scan. -/
theorem scanAnomalies_ok_spec (db : Db) (d : Int) (db2 : Db) (issues : List DataIssueRow)
    (h : scanAnomalies db d = .ok (db2, issues)) :
    db2.dataIssues = db.dataIssues.filter (keepIssue d) ++ issues ∧
    db2.transactions = db.transactions ∧ db2.spots = db.spots ∧
    db2.dailyReports = db.dailyReports ∧ db2.paymentsReports = db.paymentsReports ∧
    db2.productsReports = db.productsReports ∧ db2.spotsReports = db.spotsReports ∧
    db2.insights = db.insights ∧
    (∀ ps, ignoredPairsOf db d = .ok ps →
      ∀ r ∈ issues, pairMem ps r.issue_type (ctxTxVal r.context) = false) ∧
    (∀ r ∈ issues, r.date = d ∧ r.ignored = false) := by
  unfold scanAnomalies at h
  split at h
  · simp at h
  case _ ps hps =>
  split at h
  · simp at h
  case _ base hbase =>
    injection h with h2
    rw [Prod.mk.injEq] at h2
    rcases h2 with ⟨hdb2, hiss⟩
    subst hdb2
    have hprops : ∀ r ∈ issues, pairMem ps r.issue_type (ctxTxVal r.context) = false ∧
        r.date = d ∧ r.ignored = false := by
      intro r hr
      rw [← hiss] at hr
      rcases List.mem_append.mp hr with h1 | h1
      · exact txIssues_props ps d (txOn db d) base hbase r h1
      · exact noTxList_props ps db d r h1
    refine ⟨by rw [hiss], rfl, rfl, rfl, rfl, rfl, rfl, rfl, ?_, ?_⟩
    · intro ps2 hps2 r hr
      rw [hps] at hps2
      injection hps2 with h3
      subst h3
      exact (hprops r hr).1
    · intro r hr
      exact (hprops r hr).2

/-- C1: for every date, `scan_anomalies` replaces the date's non-ignored
DataIssue rows with exactly the freshly computed set (first conjunct: the
table becomes the ignored/other-date survivors plus the fresh issues, in
order), keeps every ignored row of that date (second conjunct), and never
emits an issue whose `(issue_type, transaction-id-from-context)` pair equals
the pair of an ignored issue of that date (third conjunct); fresh rows carry
the scanned date and are not ignored (fourth conjunct). -/
theorem c1_scan_replaces_modulo_ignored (db : Db) (d : Int) (db2 : Db)
    (issues : List DataIssueRow) (h : scanAnomalies db d = .ok (db2, issues)) :
    db2.dataIssues = db.dataIssues.filter (keepIssue d) ++ issues ∧
    (∀ r ∈ db.dataIssues, r.date = d → r.ignored = true → r ∈ db2.dataIssues) ∧
    (∀ ps, ignoredPairsOf db d = .ok ps →
      ∀ r ∈ issues, pairMem ps r.issue_type (ctxTxVal r.context) = false) ∧
    (∀ r ∈ issues, r.date = d ∧ r.ignored = false) := by
  rcases scanAnomalies_ok_spec db d db2 issues h with ⟨h1, _, _, _, _, _, _, _, h9, h10⟩
  refine ⟨h1, ?_, h9, h10⟩
  intro r hr _ hig
  rw [h1]
  refine List.mem_append.mpr (Or.inl ?_)
  exact List.mem_filter.mpr ⟨hr, by simp [keepIssue, hig]⟩

def baseTx : TransactionRow :=
  { transaction_id := "", date_start := none, date_close := none, status := none,
    sum := 0, payed_sum := 0, payed_cash := 0, payed_card := 0, payed_bonus := 0,
    payed_third_party := 0, payed_cert := 0, spot_id := "", table_id := "", user_id := "",
    client_id := "", service_mode := "", processing_status := "", raw := emptyObj }

def dbEmpty : Db := ⟨[], [], [], [], [], [], [], []⟩

def c1wTxA : TransactionRow :=
  { baseTx with
    transaction_id := "a1"
    date_start := some 432000001
    status := some 2
    sum := 0
    payed_sum := 500
    payed_cash := 400 }

def c1wTxB : TransactionRow :=
  { baseTx with
    transaction_id := "b2"
    date_start := some 432000002
    status := some 1
    sum := 300
    payed_sum := 300
    payed_cash := 200 }

def c1wIgnoredRow : DataIssueRow :=
  { date := 5, issue_type := "payment_mismatch", severity := 2, message := "old",
    context := Json.obj [("transaction_id", Json.str "a1")], ignored := true }

def c1wStaleRow : DataIssueRow :=
  { date := 5, issue_type := "zero_or_negative_sum", severity := 2, message := "stale",
    context := Json.obj [("transaction_id", Json.str "gone")], ignored := false }

def c1wDb : Db :=
  { dbEmpty with
    transactions := [c1wTxA, c1wTxB]
    dataIssues := [c1wIgnoredRow, c1wStaleRow] }

def c1wDb2 : Db :=
  match scanAnomalies c1wDb 5 with
  | .ok p => p.1
  | .error _ => c1wDb

def c1wIssues : List DataIssueRow :=
  match scanAnomalies c1wDb 5 with
  | .ok p => p.2
  | .error _ => []

/-- Witness for C1 at a concrete store: transaction `a1` has a suppressed
(ignored) payment mismatch and a fresh zero-sum issue, `b2` a fresh
mismatch; the stale non-ignored row is dropped. -/
theorem c1_scan_replaces_modulo_ignored_witness :
    c1wDb2.dataIssues = c1wDb.dataIssues.filter (keepIssue 5) ++ c1wIssues ∧
    (∀ r ∈ c1wDb.dataIssues, r.date = 5 → r.ignored = true → r ∈ c1wDb2.dataIssues) ∧
    (∀ ps, ignoredPairsOf c1wDb 5 = .ok ps →
      ∀ r ∈ c1wIssues, pairMem ps r.issue_type (ctxTxVal r.context) = false) ∧
    (∀ r ∈ c1wIssues, r.date = 5 ∧ r.ignored = false) :=
  c1_scan_replaces_modulo_ignored c1wDb 5 c1wDb2 c1wIssues rfl

/-- C10: `scan_anomalies` is frame-bounded: every other table of the store
is untouched, every DataIssue row of another date or ignored row of this
date survives, and any new row it leaves behind is a non-ignored row for
the scanned date. -/
theorem c10_scan_frame (db : Db) (d : Int) (db2 : Db) (issues : List DataIssueRow)
    (h : scanAnomalies db d = .ok (db2, issues)) :
    db2.transactions = db.transactions ∧ db2.spots = db.spots ∧
    db2.dailyReports = db.dailyReports ∧ db2.paymentsReports = db.paymentsReports ∧
    db2.productsReports = db.productsReports ∧ db2.spotsReports = db.spotsReports ∧
    db2.insights = db.insights ∧
    (∀ r ∈ db.dataIssues, r.date ≠ d ∨ r.ignored = true → r ∈ db2.dataIssues) ∧
    (∀ r ∈ db2.dataIssues, r ∈ db.dataIssues ∨ (r.date = d ∧ r.ignored = false)) := by
  rcases scanAnomalies_ok_spec db d db2 issues h with ⟨h1, h2, h3, h4, h5, h6, h7, h8, _, h10⟩
  refine ⟨h2, h3, h4, h5, h6, h7, h8, ?_, ?_⟩
  · intro r hr hcond
    rw [h1]
    refine List.mem_append.mpr (Or.inl ?_)
    refine List.mem_filter.mpr ⟨hr, ?_⟩
    unfold keepIssue
    rcases hcond with hc | hc
    · simp [hc]
    · simp [hc]
  · intro r hr
    rw [h1] at hr
    rcases List.mem_append.mp hr with h11 | h11
    · exact Or.inl (List.mem_filter.mp h11).1
    · exact Or.inr (h10 r h11)

def c10wOtherDateRow : DataIssueRow :=
  { date := 4, issue_type := "payment_mismatch", severity := 2, message := "other day",
    context := Json.obj [("transaction_id", Json.str "old")], ignored := false }

def c10wDb : Db :=
  { dbEmpty with
    transactions := [c1wTxA]
    dataIssues := [c10wOtherDateRow, c1wIgnoredRow] }

def c10wDb2 : Db :=
  match scanAnomalies c10wDb 5 with
  | .ok p => p.1
  | .error _ => c10wDb

def c10wIssues : List DataIssueRow :=
  match scanAnomalies c10wDb 5 with
  | .ok p => p.2
  | .error _ => []

/-- Witness for C10 at a concrete store holding a row of another date and
an ignored row of the scanned date. -/
theorem c10_scan_frame_witness :
    c10wDb2.transactions = c10wDb.transactions ∧ c10wDb2.spots = c10wDb.spots ∧
    c10wDb2.dailyReports = c10wDb.dailyReports ∧
    c10wDb2.paymentsReports = c10wDb.paymentsReports ∧
    c10wDb2.productsReports = c10wDb.productsReports ∧
    c10wDb2.spotsReports = c10wDb.spotsReports ∧
    c10wDb2.insights = c10wDb.insights ∧
    (∀ r ∈ c10wDb.dataIssues, r.date ≠ 5 ∨ r.ignored = true → r ∈ c10wDb2.dataIssues) ∧
    (∀ r ∈ c10wDb2.dataIssues, r ∈ c10wDb.dataIssues ∨ (r.date = 5 ∧ r.ignored = false)) :=
  c10_scan_frame c10wDb 5 c10wDb2 c10wIssues rfl

theorem mem_new_insights {db : Db} {d : Int} {l : List InsightRow} (i : InsightRow)
    (hi : i ∈ db.insights.filter (fun r => !(r.date == d)) ++ l) (hd : i.date = d) : i ∈ l := by
  rcases List.mem_append.mp hi with h1 | h1
  · rcases List.mem_filter.mp h1 with ⟨_, hk⟩
    rw [hd] at hk
    simp at hk
  · exact h1

/-- C5: given the date's rollup exists, `generate_insights` leaves a
revenue-drop insight for the date exactly when a most-recent prior rollup
exists with positive revenue and the drop fraction reaches 3/10 (boundary
inclusive), and an average-check-drop insight under the same threshold with
positive prior average check. -/
theorem c5_insight_thresholds (db : Db) (d : Int) (cur : DailyReportRow)
    (hcur : lookupDaily db.dailyReports d = some cur) :
    ((∃ i ∈ (generateInsights db d).1.insights, i.date = d ∧ i.title = revDropTitle) ↔
      (∃ p, prevDaily db d = some p ∧ 0 < p.revenue ∧
        (3 : ℚ)/10 ≤ dropFrac p.revenue cur.revenue)) ∧
    ((∃ i ∈ (generateInsights db d).1.insights, i.date = d ∧ i.title = avgDropTitle) ↔
      (∃ p, prevDaily db d = some p ∧ 0 < p.avg_check ∧
        (3 : ℚ)/10 ≤ dropFrac p.avg_check cur.avg_check)) := by
  rcases hp : prevDaily db d with _ | p
  case none =>
    have hins : (generateInsights db d).1.insights =
        db.insights.filter (fun r => !(r.date == d)) ++
        ((if cur.transactions_count = 0 then [noSalesRow d] else []) ++ [] ++ []) := by
      unfold generateInsights
      rw [hcur, hp]
    constructor
    · constructor
      · rintro ⟨i, hi, hd, ht⟩
        have h1 := mem_new_insights i (hins ▸ hi) hd
        simp only [List.append_nil] at h1
        split at h1
        · rcases List.mem_singleton.mp h1 with rfl
          simp [noSalesRow, revDropRow, avgDropRow, noSalesTitle, revDropTitle, avgDropTitle] at ht
        · simp at h1
      · rintro ⟨p2, hp2, _, _⟩
        exact absurd hp2 (by simp)
    · constructor
      · rintro ⟨i, hi, hd, ht⟩
        have h1 := mem_new_insights i (hins ▸ hi) hd
        simp only [List.append_nil] at h1
        split at h1
        · rcases List.mem_singleton.mp h1 with rfl
          simp [noSalesRow, revDropRow, avgDropRow, noSalesTitle, revDropTitle, avgDropTitle] at ht
        · simp at h1
      · rintro ⟨p2, hp2, _, _⟩
        exact absurd hp2 (by simp)
  case some =>
    have hins : (generateInsights db d).1.insights =
        db.insights.filter (fun r => !(r.date == d)) ++
        ((if cur.transactions_count = 0 then [noSalesRow d] else []) ++
         (if 0 < p.revenue ∧ (3 : ℚ)/10 ≤ dropFrac p.revenue cur.revenue
          then [revDropRow d (dropFrac p.revenue cur.revenue)] else []) ++
         (if 0 < p.avg_check ∧ (3 : ℚ)/10 ≤ dropFrac p.avg_check cur.avg_check
          then [avgDropRow d (dropFrac p.avg_check cur.avg_check)] else [])) := by
      unfold generateInsights
      rw [hcur, hp]
    constructor
    · constructor
      · rintro ⟨i, hi, hd, ht⟩
        have h1 := mem_new_insights i (hins ▸ hi) hd
        rcases List.mem_append.mp h1 with h2 | h2
        · rcases List.mem_append.mp h2 with h3 | h3
          · split at h3
            · rcases List.mem_singleton.mp h3 with rfl
              simp [noSalesRow, revDropRow, avgDropRow, noSalesTitle, revDropTitle, avgDropTitle] at ht
            · simp at h3
          · split at h3
            case isTrue hc =>
              exact ⟨p, rfl, hc.1, hc.2⟩
            case isFalse =>
              simp at h3
        · split at h2
          · rcases List.mem_singleton.mp h2 with rfl
            simp [noSalesRow, revDropRow, avgDropRow, noSalesTitle, revDropTitle, avgDropTitle] at ht
          · simp at h2
      · rintro ⟨p2, hp2, hpos, hdrop⟩
        injection hp2 with hp3
        subst hp3
        refine ⟨revDropRow d (dropFrac p.revenue cur.revenue), ?_, rfl, rfl⟩
        rw [hins]
        refine List.mem_append.mpr (Or.inr ?_)
        refine List.mem_append.mpr (Or.inl ?_)
        refine List.mem_append.mpr (Or.inr ?_)
        rw [if_pos ⟨hpos, hdrop⟩]
        exact List.mem_singleton.mpr rfl
    · constructor
      · rintro ⟨i, hi, hd, ht⟩
        have h1 := mem_new_insights i (hins ▸ hi) hd
        rcases List.mem_append.mp h1 with h2 | h2
        · rcases List.mem_append.mp h2 with h3 | h3
          · split at h3
            · rcases List.mem_singleton.mp h3 with rfl
              simp [noSalesRow, revDropRow, avgDropRow, noSalesTitle, revDropTitle, avgDropTitle] at ht
            · simp at h3
          · split at h3
            · rcases List.mem_singleton.mp h3 with rfl
              simp [noSalesRow, revDropRow, avgDropRow, noSalesTitle, revDropTitle, avgDropTitle] at ht
            · simp at h3
        · split at h2
          case isTrue hc =>
            exact ⟨p, rfl, hc.1, hc.2⟩
          case isFalse =>
            simp at h2
      · rintro ⟨p2, hp2, hpos, hdrop⟩
        injection hp2 with hp3
        subst hp3
        refine ⟨avgDropRow d (dropFrac p.avg_check cur.avg_check), ?_, rfl, rfl⟩
        rw [hins]
        refine List.mem_append.mpr (Or.inr ?_)
        refine List.mem_append.mpr (Or.inr ?_)
        rw [if_pos ⟨hpos, hdrop⟩]
        exact List.mem_singleton.mpr rfl

def c5wPrior : DailyReportRow :=
  { date := 1, transactions_count := 10, revenue := 1000, avg_check := 100,
    raw_transactions := emptyObj, raw_payments := emptyObj, raw_products_sales := emptyObj }

def c5wCur700 : DailyReportRow :=
  { date := 2, transactions_count := 10, revenue := 700, avg_check := 70,
    raw_transactions := emptyObj, raw_payments := emptyObj, raw_products_sales := emptyObj }

def c5wCur701 : DailyReportRow :=
  { date := 2, transactions_count := 10, revenue := 701, avg_check := 100,
    raw_transactions := emptyObj, raw_payments := emptyObj, raw_products_sales := emptyObj }

def c5wDb700 : Db := { dbEmpty with dailyReports := [c5wPrior, c5wCur700] }

def c5wDb701 : Db := { dbEmpty with dailyReports := [c5wPrior, c5wCur701] }

/-- Witness for C5: prior revenue 1000, current 700 fires the revenue-drop
insight (and, with average check 100 → 70, the average-check-drop insight);
current 701 does not fire. -/
theorem c5_insight_thresholds_witness :
    (∃ i ∈ (generateInsights c5wDb700 2).1.insights, i.date = 2 ∧ i.title = revDropTitle) ∧
    (∃ i ∈ (generateInsights c5wDb700 2).1.insights, i.date = 2 ∧ i.title = avgDropTitle) ∧
    ¬ (∃ i ∈ (generateInsights c5wDb701 2).1.insights, i.date = 2 ∧ i.title = revDropTitle) := by
  refine ⟨?_, ?_, ?_⟩
  · exact ((c5_insight_thresholds c5wDb700 2 c5wCur700 rfl).1).mpr
      ⟨c5wPrior, rfl, by norm_num [c5wPrior], by norm_num [dropFrac, c5wPrior, c5wCur700]⟩
  · exact ((c5_insight_thresholds c5wDb700 2 c5wCur700 rfl).2).mpr
      ⟨c5wPrior, rfl, by norm_num [c5wPrior], by norm_num [dropFrac, c5wPrior, c5wCur700]⟩
  · intro hex
    rcases ((c5_insight_thresholds c5wDb701 2 c5wCur701 rfl).1).mp hex with ⟨p, hp2, hpos, hdrop⟩
    have h0 : prevDaily c5wDb701 2 = some c5wPrior := rfl
    rw [h0] at hp2
    injection hp2 with h1
    subst h1
    exact absurd hdrop (by norm_num [dropFrac, c5wPrior, c5wCur701])

theorem assocFind_append (l1 l2 : List (String × SummaryItem)) (k : String) :
    assocFind (l1 ++ l2) k =
      match assocFind l1 k with
      | some v => some v
      | none => assocFind l2 k := by
  induction l1 with
  | nil => simp [assocFind]
  | cons p rest ih =>
    by_cases hp : (p.1 == k) = true <;> simp [assocFind, hp, ih]

theorem assocFind_isSome_of_any (l : List (String × SummaryItem)) (k : String)
    (h : l.any (fun p => p.1 == k) = true) : ∃ v, assocFind l k = some v := by
  induction l with
  | nil => simp at h
  | cons p rest ih =>
    by_cases hp : (p.1 == k) = true
    · exact ⟨p.2, by simp [assocFind, hp]⟩
    · simp only [assocFind, hp, Bool.false_eq_true, if_false]
      apply ih
      simpa [List.any_cons, hp] using h

theorem assocFind_none_of_any (l : List (String × SummaryItem)) (k : String)
    (h : l.any (fun p => p.1 == k) = false) : assocFind l k = none := by
  induction l with
  | nil => rfl
  | cons p rest ih =>
    simp only [List.any_cons, Bool.or_eq_false_iff] at h
    simp [assocFind, h.1, ih h.2]

theorem find_set_map (l : List (String × SummaryItem)) (key : String) (tx : TransactionRow)
    (k : String) :
    assocFind (l.map (fun p => if p.1 == key then (key, addTx p.2 tx) else p)) k =
      if key = k then (assocFind l k).map (fun v => addTx v tx) else assocFind l k := by
  induction l with
  | nil =>
    by_cases hk : key = k <;> simp [assocFind, hk]
  | cons p rest ih =>
    simp only [List.map_cons]
    by_cases hp : (p.1 == key) = true
    · have hpk : p.1 = key := by simpa using hp
      rw [if_pos hp]
      by_cases hk : key = k
      · have h1 : ((key : String) == k) = true := by simp [hk]
        have h2 : (p.1 == k) = true := by simp [hpk, hk]
        simp only [assocFind, h1, h2, if_pos, if_true]
        rw [if_pos hk]
        simp [assocFind, h2]
      · have h1 : ((key : String) == k) = false := by simp [hk]
        have h2 : (p.1 == k) = false := by simp [hpk, hk]
        simp only [assocFind, h1, h2, Bool.false_eq_true, if_false]
        rw [ih, if_neg hk]
    · rw [if_neg hp]
      by_cases hpk2 : (p.1 == k) = true
      · have hk : ¬ key = k := by
          intro h
          rw [h] at hp
          exact hp hpk2
        simp only [assocFind, hpk2, if_true]
        rw [if_neg hk]
      · have h2 : (p.1 == k) = false := by
          cases h3 : (p.1 == k)
          · rfl
          · exact absurd h3 hpk2
        simp only [assocFind, h2, Bool.false_eq_true, if_false]
        exact ih

theorem assocFind_bumpSpot (acc : List (String × SummaryItem)) (tx : TransactionRow)
    (k : String) :
    assocFind (bumpSpot acc tx) k =
      if spotKey tx = k then some (addTx ((assocFind acc k).getD emptyItem) tx)
      else assocFind acc k := by
  unfold bumpSpot
  by_cases hany : acc.any (fun p => p.1 == spotKey tx) = true
  · rw [if_pos hany, find_set_map]
    by_cases hk : spotKey tx = k
    · rw [if_pos hk, if_pos hk]
      rcases assocFind_isSome_of_any acc k (by rw [← hk]; exact hany) with ⟨v, hv⟩
      rw [hv]
      rfl
    · rw [if_neg hk, if_neg hk]
  · rw [if_neg hany]
    rw [assocFind_append]
    by_cases hk : spotKey tx = k
    · have hany2 : acc.any (fun p => p.1 == spotKey tx) = false := by
        cases h2 : acc.any (fun p => p.1 == spotKey tx)
        · rfl
        · exact absurd h2 hany
      have hnone : assocFind acc k = none := by
        apply assocFind_none_of_any
        rw [← hk]
        exact hany2
      rw [hnone, if_pos hk]
      have hkk : ((spotKey tx, addTx emptyItem tx).1 == k) = true := by simpa using hk
      simp [assocFind, hkk]
    · by_cases hsome : ∃ v, assocFind acc k = some v
      · rcases hsome with ⟨v, hv⟩
        rw [hv, if_neg hk]
      · have hnone : assocFind acc k = none := by
          cases h2 : assocFind acc k
          · rfl
          · exact absurd ⟨_, h2⟩ hsome
        rw [hnone, if_neg hk]
        have hkk : ((spotKey tx, addTx emptyItem tx).1 == k) = false := by
          simpa using hk
        simp [assocFind, hkk, hnone]

theorem fallback_fold (txs : List TransactionRow) :
    ∀ acc k, assocFind (txs.foldl bumpSpot acc) k =
      (txs.filter (fun tx => spotKey tx == k)).foldl
        (fun o tx => some (addTx (o.getD emptyItem) tx)) (assocFind acc k) := by
  induction txs with
  | nil =>
    intro acc k
    rfl
  | cons tx rest ih =>
    intro acc k
    simp only [List.foldl_cons, List.filter_cons]
    by_cases hk : (spotKey tx == k) = true
    · rw [if_pos hk]
      simp only [List.foldl_cons]
      rw [ih]
      congr 1
      rw [assocFind_bumpSpot, if_pos (by simpa using hk)]
    · rw [if_neg hk]
      rw [ih]
      congr 1
      rw [assocFind_bumpSpot, if_neg (by simpa using hk)]

theorem optFold_some (g : List TransactionRow) :
    ∀ i, g.foldl (fun o tx => some (addTx (o.getD emptyItem) tx)) (some i) =
      some (g.foldl addTx i) := by
  induction g with
  | nil =>
    intro i
    rfl
  | cons tx rest ih =>
    intro i
    simp only [List.foldl_cons]
    rw [ih]
    rfl

theorem optFold_none (g : List TransactionRow) (hne : g ≠ []) :
    g.foldl (fun o tx => some (addTx (o.getD emptyItem) tx)) none =
      some (g.foldl addTx emptyItem) := by
  cases g with
  | nil => exact absurd rfl hne
  | cons tx rest =>
    simp only [List.foldl_cons]
    rw [optFold_some]
    rfl

theorem foldl_addTx_spec (g : List TransactionRow) :
    ∀ i : SummaryItem,
      g.foldl addTx i =
        { transactions := i.transactions + (g.length : Int),
          revenue := i.revenue + (g.map (fun t => t.sum)).sum,
          returns := i.returns + ((g.filter isReturnTx).length : Int),
          returns_sum := i.returns_sum + ((g.filter isReturnTx).map (fun t => t.sum)).sum } := by
  induction g with
  | nil =>
    intro i
    cases i
    simp
  | cons tx rest ih =>
    intro i
    simp only [List.foldl_cons, List.length_cons, List.map_cons, List.sum_cons, List.filter_cons]
    rw [ih]
    by_cases hr : isReturnTx tx = true
    · rw [if_pos hr]
      simp only [addTx, hr, if_true, List.length_cons, List.map_cons, List.sum_cons,
        SummaryItem.mk.injEq]
      refine ⟨by push_cast; ring, by ring, by push_cast; ring, by ring⟩
    · rw [if_neg hr]
      have hr2 : isReturnTx tx = false := by
        cases h3 : isReturnTx tx
        · rfl
        · exact absurd h3 hr
      simp only [addTx, hr2, Bool.false_eq_true, if_false, SummaryItem.mk.injEq]
      refine ⟨by push_cast; ring, by ring, by ring, by ring⟩

theorem fallbackSummary_spec (txs : List TransactionRow) (k : String) :
    assocFind (fallbackSummary txs) k =
      (if (txs.filter (fun tx => spotKey tx == k)).isEmpty then none
       else some
        { transactions := ((txs.filter (fun tx => spotKey tx == k)).length : Int),
          revenue := ((txs.filter (fun tx => spotKey tx == k)).map (fun t => t.sum)).sum,
          returns := (((txs.filter (fun tx => spotKey tx == k)).filter isReturnTx).length : Int),
          returns_sum := (((txs.filter (fun tx => spotKey tx == k)).filter
            isReturnTx).map (fun t => t.sum)).sum }) := by
  unfold fallbackSummary
  rw [fallback_fold]
  by_cases hg : (txs.filter (fun tx => spotKey tx == k)).isEmpty = true
  · rw [if_pos hg]
    rw [List.isEmpty_iff] at hg
    rw [hg]
    rfl
  · rw [if_neg hg]
    have hne : txs.filter (fun tx => spotKey tx == k) ≠ [] := by
      intro h2
      exact hg (by rw [h2]; rfl)
    have hstart : assocFind ([] : List (String × SummaryItem)) k = none := rfl
    rw [hstart, optFold_none _ hne, foldl_addTx_spec]
    simp [emptyItem]

/-- C7: when no SpotsSalesReport row exists for the date — likewise when the
stored aggregate is not a dict, or its rows produce an empty summary —
`daily_summary_by_spot` aggregates the stored transactions whose start
timestamp falls on the date: grouped by `spot_id` (key `"unknown"` when
absent, via `spotKey`), each group reporting its size, its revenue sum, and
— for the transactions with status 3 or negative sum (`isReturnTx`) — the
returns count and returns sum. -/
theorem c7_summary_fallback (db : Db) (d : Int) :
    (lookupRaw db.spotsReports d = none →
      dailySummaryBySpot db d = .ok (fallbackSummary (txOn db d))) ∧
    (∀ raw, lookupRaw db.spotsReports d = some raw → raw.isObj = false →
      dailySummaryBySpot db d = .ok (fallbackSummary (txOn db d))) ∧
    (∀ raw rows, lookupRaw db.spotsReports d = some raw → raw.isObj = true →
      pyIterE (spotRowsOf raw) = .ok rows → prefSummary rows [] = .ok [] →
      dailySummaryBySpot db d = .ok (fallbackSummary (txOn db d))) ∧
    (∀ k, assocFind (fallbackSummary (txOn db d)) k =
      (if ((txOn db d).filter (fun tx => spotKey tx == k)).isEmpty then none
       else some
        { transactions := (((txOn db d).filter (fun tx => spotKey tx == k)).length : Int),
          revenue := (((txOn db d).filter (fun tx => spotKey tx == k)).map
            (fun t => t.sum)).sum,
          returns := ((((txOn db d).filter (fun tx => spotKey tx == k)).filter
            isReturnTx).length : Int),
          returns_sum := ((((txOn db d).filter (fun tx => spotKey tx == k)).filter
            isReturnTx).map (fun t => t.sum)).sum })) := by
  refine ⟨?_, ?_, ?_, fun k => fallbackSummary_spec (txOn db d) k⟩
  · intro hnone
    simp only [dailySummaryBySpot, hnone]
  · intro raw hsome hobj
    simp only [dailySummaryBySpot, hsome, hobj, Bool.false_eq_true, if_false]
  · intro raw rows hsome hobj hiter hpref
    simp only [dailySummaryBySpot, hsome, hobj, if_true, hiter, hpref, List.isEmpty_nil]

def c7wTxRet : TransactionRow :=
  { baseTx with
    transaction_id := "r1"
    date_start := some 432000007
    status := some 3
    sum := -50 }

def c7wTxSale : TransactionRow :=
  { baseTx with
    transaction_id := "s1"
    date_start := some 432000008
    status := some 2
    sum := 900
    spot_id := "7" }

def c7wDb : Db := { dbEmpty with transactions := [c7wTxRet, c7wTxSale] }

/-- Witness for C7: with no SpotsSalesReport row, the summary is the
transaction fallback; the spotless return transaction lands under
`"unknown"` and is counted as a return. -/
theorem c7_summary_fallback_witness :
    dailySummaryBySpot c7wDb 5 = .ok (fallbackSummary (txOn c7wDb 5)) ∧
    assocFind (fallbackSummary (txOn c7wDb 5)) "unknown" =
      some { transactions := 1, revenue := -50, returns := 1, returns_sum := -50 } ∧
    assocFind (fallbackSummary (txOn c7wDb 5)) "7" =
      some { transactions := 1, revenue := 900, returns := 0, returns_sum := 0 } := by
  refine ⟨(c7_summary_fallback c7wDb 5).1 rfl, ?_, ?_⟩
  · rw [(c7_summary_fallback c7wDb 5).2.2.2 "unknown"]
    rfl
  · rw [(c7_summary_fallback c7wDb 5).2.2.2 "7"]
    rfl

/-- The three auth styles `_apply_auth` recognizes. -/
def authRecognized (s : GwSettings) : Bool :=
  (s.auth_style == "query_token") || (s.auth_style == "query_access_token")
    || (s.auth_style == "bearer")

/-- Configuration failure: a missing required setting or an unrecognized
auth style. -/
def gwConfigBad (s : GwSettings) : Bool := settingsMissing s || !authRecognized s

/-- The failures `request` maps to `PosterAPIError`: a raised transport
exception, a 4xx/5xx status, or a body that is not valid JSON. -/
def apiFailure : TransportResult → Bool
  | .exn => true
  | .resp st body => raisesForStatus st || body.isNone

def is2xx (st : Nat) : Bool := decide (200 ≤ st) && decide (st < 300)

def gwOkSettings : GwSettings :=
  { base_url := "https://api.example", token := "tk", auth_style := "query_token" }

/-- C6 counterexample: `raise_for_status` raises only for 4xx/5xx, so a
well-configured request whose final response carries status 300 and a valid
JSON body returns the parsed body — it does not raise `APIError`, although
300 is not a 2xx status, contradicting the claim's "raises APIError exactly
when … the response status is not 2xx". -/
theorem c6_counterexample :
    gatewayCall gwOkSettings [] (.resp 300 (some Json.null)) = .ok Json.null ∧
    is2xx 300 = false ∧ apiFailure (.resp 300 (some Json.null)) = false := by
  exact ⟨rfl, rfl, rfl⟩

/-- C6 (amended): a gateway request (client built from settings, then the
request issued) raises ConfigError exactly when a required setting is absent
or the auth style is unrecognized; otherwise it raises APIError exactly when
the transport call fails, the response status is 4xx/5xx (`raise_for_status`
— not every non-2xx status), or the body is not valid JSON; otherwise it
returns the parsed JSON body. -/
theorem c6_gateway_errors (s : GwSettings) (params : List (String × String))
    (t : TransportResult) :
    (gatewayCall s params t = .error GwErr.config ↔ gwConfigBad s = true) ∧
    (gatewayCall s params t = .error GwErr.api ↔
      (gwConfigBad s = false ∧ apiFailure t = true)) ∧
    (∀ st j, gwConfigBad s = false → t = .resp st (some j) → raisesForStatus st = false →
      gatewayCall s params t = .ok j) := by
  unfold gatewayCall fromSettings
  by_cases hm : settingsMissing s = true
  · rw [if_pos hm]
    refine ⟨by simp [gwConfigBad, hm], by simp [gwConfigBad, hm], ?_⟩
    intro st j hbad _ _
    rw [gwConfigBad, hm] at hbad
    simp at hbad
  · rw [if_neg hm]
    dsimp only
    have hm2 : settingsMissing s = false := by
      cases h2 : settingsMissing s
      · rfl
      · exact absurd h2 hm
    unfold request
    by_cases hrec : authRecognized s = true
    · have hauth : ∃ pr, applyAuth s params [] = .ok pr := by
        unfold authRecognized at hrec
        unfold applyAuth
        by_cases h1 : s.auth_style = "query_token"
        · exact ⟨_, by rw [if_pos h1]⟩
        · by_cases h2 : s.auth_style = "query_access_token"
          · exact ⟨_, by rw [if_neg h1, if_pos h2]⟩
          · by_cases h3 : s.auth_style = "bearer"
            · exact ⟨_, by rw [if_neg h1, if_neg h2, if_pos h3]⟩
            · simp [h1, h2, h3] at hrec
      rcases hauth with ⟨pr, hpr⟩
      rw [hpr]
      have hbadf : gwConfigBad s = false := by simp [gwConfigBad, hm2, hrec]
      cases t with
      | exn =>
        dsimp only
        refine ⟨by simp [hbadf], ?_, ?_⟩
        · exact Iff.intro (fun _ => ⟨hbadf, rfl⟩) (fun _ => rfl)
        · intro st j _ ht _
          exact absurd ht (by simp)
      | resp st body =>
        dsimp only
        by_cases hst : raisesForStatus st = true
        · rw [if_pos hst]
          refine ⟨by simp [hbadf], ?_, ?_⟩
          · refine Iff.intro (fun _ => ⟨hbadf, by simp [apiFailure, hst]⟩) (fun _ => rfl)
          · intro st2 j _ ht hst2
            injection ht with h4 h5
            subst h4
            rw [hst] at hst2
            exact absurd hst2 (by simp)
        · rw [if_neg hst]
          have hst2 : raisesForStatus st = false := by
            cases h3 : raisesForStatus st
            · rfl
            · exact absurd h3 hst
          cases body with
          | none =>
            refine ⟨by simp [hbadf], ?_, ?_⟩
            · refine Iff.intro (fun _ => ⟨hbadf, by simp [apiFailure, hst2]⟩) (fun _ => rfl)
            · intro st3 j _ ht _
              injection ht with h4 h5
              exact absurd h5 (by simp)
          | some j =>
            refine ⟨by simp [hbadf], ?_, ?_⟩
            · refine Iff.intro (fun h4 => absurd h4 (by simp))
                (fun h4 => absurd h4.2 (by simp [apiFailure, hst2]))
            · intro st3 j2 _ ht _
              injection ht with h4 h5
              injection h5 with h5
              rw [h5]
    · have hrec2 : authRecognized s = false := by
        cases h3 : authRecognized s
        · rfl
        · exact absurd h3 hrec
      have hbad : applyAuth s params [] = .error GwErr.config := by
        unfold authRecognized at hrec2
        simp only [Bool.or_eq_false_iff, beq_eq_false_iff_ne] at hrec2
        unfold applyAuth
        rw [if_neg hrec2.1.1, if_neg hrec2.1.2, if_neg hrec2.2]
      rw [hbad]
      refine ⟨by simp [gwConfigBad, hrec2], by simp [gwConfigBad, hrec2], ?_⟩
      intro st j hbadf _ _
      rw [gwConfigBad, hm2, hrec2] at hbadf
      simp at hbadf

/-- Witness for the amended C6 at concrete inputs: a 204 response with a
JSON body is returned parsed; a 404 maps to APIError; an unrecognized auth
style maps to ConfigError. -/
theorem c6_gateway_errors_witness :
    gatewayCall gwOkSettings [] (.resp 204 (some (Json.obj []))) = .ok (Json.obj []) ∧
    gatewayCall gwOkSettings [] (.resp 404 (some (Json.obj []))) = .error GwErr.api ∧
    gatewayCall { gwOkSettings with auth_style := "basic" } [] (.resp 200 (some Json.null)) =
      .error GwErr.config := by
  refine ⟨?_, ?_, ?_⟩
  · exact (c6_gateway_errors gwOkSettings [] (.resp 204 (some (Json.obj [])))).2.2 204
      (Json.obj []) rfl rfl rfl
  · exact ((c6_gateway_errors gwOkSettings [] (.resp 404 (some (Json.obj [])))).2.1).mpr
      ⟨rfl, rfl⟩
  · exact ((c6_gateway_errors { gwOkSettings with auth_style := "basic" } []
      (.resp 200 (some Json.null))).1).mpr rfl

/-- C9: a spots-sales payload whose `response` is an empty list enters
reconciliation case 2 with zero totals, and the `0 <= 0` guard lets the
zero totals override the raw figures: the DailyReport holds all zeroes,
whatever the transactions fetch returned. -/
theorem c9_empty_spots_list_zeroes (db : Db) (d : Int)
    (txR payR prodR spotsR listR : Except Unit Json) (incl : Bool)
    (db2 : Db) (n : Int) (row : DailyReportRow) (sv : Json)
    (h : importDaily db d txR payR prodR spotsR listR incl = .ok (db2, n))
    (hrow : lookupDaily db2.dailyReports d = some row)
    (hs : spotsR = .ok sv) (hobj : sv.isObj = true)
    (hresp : sv.objGet "response" = Json.arr []) :
    row.revenue = 0 ∧ row.transactions_count = 0 ∧ row.avg_check = 0 := by
  rcases importDaily_ok_parts db d txR payR prodR spotsR listR incl db2 n h with
    ⟨txV, payV, rev, ts, rca, htx, hpay, hsums, hup, htrans, hrec, hn, hlook⟩
  have hsv : optVal spotsR = sv := by
    rw [hs]
    rfl
  rw [hsv] at hrec
  rw [reconcile_list sv _ _ _ [] 0 0 hobj hresp rfl] at hrec
  rw [if_pos (le_refl (0 : Int))] at hrec
  injection hrec with h2
  rw [hrow] at hlook
  injection hlook with h3
  subst h3
  rw [← h2]
  exact ⟨rfl, rfl, rfl⟩

def c9wTxPayload : Json := Json.obj [("response", Json.arr
  [Json.obj [("transaction_id", Json.str "t1"), ("sum", Json.num 700)],
   Json.obj [("transaction_id", Json.str "t2"), ("sum", Json.num 300)]])]

def c9wSpots : Json := Json.obj [("response", Json.arr [])]

def c9wRun : Except ImpErr (Db × Int) :=
  importDaily dbEmpty 5 (.ok c9wTxPayload) (.ok emptyObj) (.error ()) (.ok c9wSpots)
    (.error ()) false

def c9wDb2 : Db :=
  match c9wRun with
  | .ok p => p.1
  | .error _ => dbEmpty

def c9wN : Int :=
  match c9wRun with
  | .ok p => p.2
  | .error _ => -1

def c9wRow : DailyReportRow :=
  match lookupDaily c9wDb2.dailyReports 5 with
  | some r => r
  | none => mkDailyRow 5 (-1, -1, -1) Json.null Json.null Json.null

/-- Witness for C9: two transactions with positive sums are fetched, yet the
empty spots-sales list zeroes the rollup. -/
theorem c9_empty_spots_list_zeroes_witness :
    c9wRow.revenue = 0 ∧ c9wRow.transactions_count = 0 ∧ c9wRow.avg_check = 0 :=
  c9_empty_spots_list_zeroes dbEmpty 5 (.ok c9wTxPayload) (.ok emptyObj) (.error ())
    (.ok c9wSpots) (.error ()) false c9wDb2 c9wN c9wRow c9wSpots rfl rfl rfl rfl rfl

/-- The one reconciliation outcome whose average check is not re-derived
from the chosen revenue and count: the dict-shaped aggregate applies
(parseable non-negative revenue) and carries a present, parseable
`middle_invoice`. -/
def miOverride (s : Json) : Prop :=
  ∃ q m : ℚ, (s.objGet "response").isObj = true ∧
    ((s.objGet "response").objGet "revenue").isNull = false ∧
    pyFloat? (pyOr ((s.objGet "response").objGet "revenue") (Json.num 0)) = some q ∧
    0 ≤ q ∧
    ((s.objGet "response").objGet "middle_invoice").isNull = false ∧
    pyFloat? ((s.objGet "response").objGet "middle_invoice") = some m

theorem reconcile_avg_derived (s : Json) (rev cnt : Int) (rca : Int × Int × Int)
    (h : reconcile s rev cnt (derive rev cnt) = .ok rca)
    (hnmi : ¬ miOverride s) :
    rca.2.2 = derive rca.1 rca.2.1 := by
  unfold reconcile at h
  by_cases hobj : s.isObj = true
  case neg =>
    rw [if_neg hobj] at h
    injection h with h2
    rw [← h2]
  case pos =>
  rw [if_pos hobj] at h
  by_cases hcond : ((s.objGet "response").isObj
      && !((s.objGet "response").objGet "revenue").isNull) = true
  · rw [if_pos hcond] at h
    cases hq : pyFloat? (pyOr ((s.objGet "response").objGet "revenue") (Json.num 0)) with
    | none =>
      rw [hq] at h
      simp at h
    | some q =>
      rw [hq] at h
      dsimp only at h
      by_cases hq0 : 0 ≤ q
      · rw [if_pos hq0] at h
        injection h with h3
        rw [← h3]
        have hmi : pyFloat? ((s.objGet "response").objGet "middle_invoice") = none ∨
            ((s.objGet "response").objGet "middle_invoice").isNull = true := by
          by_cases hnull : ((s.objGet "response").objGet "middle_invoice").isNull = true
          · exact Or.inr hnull
          · cases hparse : pyFloat? ((s.objGet "response").objGet "middle_invoice") with
            | none => exact Or.inl rfl
            | some m =>
              exfalso
              apply hnmi
              have h6 : (s.objGet "response").isObj = true ∧
                  ((s.objGet "response").objGet "revenue").isNull = false := by
                simpa using hcond
              refine ⟨q, m, h6.1, h6.2, hq, hq0, ?_, hparse⟩
              cases h5 : ((s.objGet "response").objGet "middle_invoice").isNull
              · rfl
              · exact absurd h5 hnull
        rw [dictAvg_unusable _ _ _ hmi]
      · rw [if_neg hq0] at h
        injection h with h3
        rw [← h3]
  · rw [if_neg hcond] at h
    cases hresp : s.objGet "response" with
    | arr rows =>
      rw [hresp] at h
      dsimp only at h
      cases htot : listTotals rows with
      | error e =>
        rw [htot] at h
        simp at h
      | ok rc =>
        rw [htot] at h
        dsimp only at h
        by_cases hr0 : 0 ≤ rc.1
        · rw [if_pos hr0] at h
          injection h with h3
          rw [← h3]
        · rw [if_neg hr0] at h
          injection h with h3
          rw [← h3]
    | null =>
      rw [hresp] at h
      dsimp only at h
      injection h with h2
      rw [← h2]
    | bool b =>
      rw [hresp] at h
      dsimp only at h
      injection h with h2
      rw [← h2]
    | num q =>
      rw [hresp] at h
      dsimp only at h
      injection h with h2
      rw [← h2]
    | str v =>
      rw [hresp] at h
      dsimp only at h
      injection h with h2
      rw [← h2]
    | obj kvs =>
      rw [hresp] at h
      dsimp only at h
      injection h with h2
      rw [← h2]

def c2xTxPayload : Json := Json.obj [("response", Json.arr
  [Json.obj [("transaction_id", Json.str "t1"), ("sum", Json.num (-99))],
   Json.obj [("transaction_id", Json.str "t2"), ("sum", Json.num (-2))]])]

def c2xRow : DailyReportRow :=
  match importDaily dbEmpty 5 (.ok c2xTxPayload) (.ok emptyObj) (.error ()) (.error ())
      (.error ()) false with
  | .ok p =>
    match lookupDaily p.1.dailyReports 5 with
    | some r => r
    | none => mkDailyRow 5 (0, 0, 0) Json.null Json.null Json.null
  | .error _ => mkDailyRow 5 (0, 0, 0) Json.null Json.null Json.null

/-- C2 counterexample: on the raw-sum path with two transactions of sums
-99 and -2 the rollup holds revenue -101 over 2 transactions, and
`int(revenue / transactions_count)` stores -50 (truncation toward zero),
not `floor(-101 / 2) = -51` as the claim's `floor` requires. -/
theorem c2_counterexample :
    c2xRow.revenue = -101 ∧ c2xRow.transactions_count = 2 ∧ c2xRow.avg_check = -50 ∧
    ⌊((-101 : ℚ) / (2 : ℚ))⌋ = -51 := by
  refine ⟨rfl, rfl, rfl, by norm_num⟩

/-- C2 (amended): the upserted rollup's average check is
`revenue / transactions_count` truncated toward zero when the count is
nonzero and 0 when it is zero — equal to `floor(revenue / count)` whenever
`revenue ≥ 0` and `count > 0`, which always holds on the two
per-location-aggregate reconciliation paths (their `>= 0` guards) but can
fail on the raw-sum path with a negative transaction-sum total. The only
exception is a dict-shaped aggregate carrying a usable `middle_invoice`,
excluded by hypothesis. -/
theorem c2_avg_check_truncation (db : Db) (d : Int)
    (txR payR prodR spotsR listR : Except Unit Json) (incl : Bool)
    (db2 : Db) (n : Int) (row : DailyReportRow)
    (h : importDaily db d txR payR prodR spotsR listR incl = .ok (db2, n))
    (hrow : lookupDaily db2.dailyReports d = some row)
    (hnmi : ¬ miOverride (optVal spotsR)) :
    (row.transactions_count = 0 → row.avg_check = 0) ∧
    (row.transactions_count ≠ 0 →
      row.avg_check = intDivTrunc row.revenue row.transactions_count) ∧
    (0 ≤ row.revenue → 0 < row.transactions_count →
      row.avg_check = ⌊(row.revenue : ℚ) / (row.transactions_count : ℚ)⌋) := by
  rcases importDaily_ok_parts db d txR payR prodR spotsR listR incl db2 n h with
    ⟨txV, payV, rev, ts, rca, htx, hpay, hsums, hup, htrans, hrec, hn, hlook⟩
  have havg : rca.2.2 = derive rca.1 rca.2.1 :=
    reconcile_avg_derived (optVal spotsR) rev _ rca hrec hnmi
  rw [hrow] at hlook
  injection hlook with h3
  subst h3
  refine ⟨?_, ?_, ?_⟩
  · intro hc
    have hc2 : rca.2.1 = 0 := hc
    show rca.2.2 = 0
    rw [havg, hc2]
    rfl
  · intro hc
    have hc2 : rca.2.1 ≠ 0 := hc
    show rca.2.2 = intDivTrunc rca.1 rca.2.1
    rw [havg]
    unfold derive
    rw [if_neg hc2]
  · intro hrev hcnt
    have hrev2 : (0 : Int) ≤ rca.1 := hrev
    have hcnt2 : (0 : Int) < rca.2.1 := hcnt
    show rca.2.2 = ⌊((rca.1 : ℚ)) / ((rca.2.1 : ℚ))⌋
    rw [havg]
    unfold derive
    rw [if_neg (by omega)]
    exact intDivTrunc_eq_floor rca.1 rca.2.1 hrev2 hcnt2

def c2wTxPayload : Json := Json.obj [("response", Json.arr
  [Json.obj [("transaction_id", Json.str "t1"), ("sum", Json.num 501)],
   Json.obj [("transaction_id", Json.str "t2"), ("sum", Json.num 0)]])]

def c2wRow : DailyReportRow :=
  match importDaily dbEmpty 5 (.ok c2wTxPayload) (.ok emptyObj) (.error ()) (.error ())
      (.error ()) false with
  | .ok p =>
    match lookupDaily p.1.dailyReports 5 with
    | some r => r
    | none => mkDailyRow 5 (-1, -1, -1) Json.null Json.null Json.null
  | .error _ => mkDailyRow 5 (-1, -1, -1) Json.null Json.null Json.null

def c2wDb2 : Db :=
  match importDaily dbEmpty 5 (.ok c2wTxPayload) (.ok emptyObj) (.error ()) (.error ())
      (.error ()) false with
  | .ok p => p.1
  | .error _ => dbEmpty

/-- Witness for the amended C2 on a raw-sum run with revenue 501 over two
transactions: the average check is the truncated (here also floored)
quotient 250. -/
theorem c2_avg_check_truncation_witness :
    ((c2wRow.transactions_count = 0 → c2wRow.avg_check = 0) ∧
     (c2wRow.transactions_count ≠ 0 →
       c2wRow.avg_check = intDivTrunc c2wRow.revenue c2wRow.transactions_count) ∧
     (0 ≤ c2wRow.revenue → 0 < c2wRow.transactions_count →
       c2wRow.avg_check = ⌊(c2wRow.revenue : ℚ) / (c2wRow.transactions_count : ℚ)⌋)) ∧
    c2wRow.avg_check = 250 := by
  constructor
  · exact c2_avg_check_truncation dbEmpty 5 (.ok c2wTxPayload) (.ok emptyObj) (.error ())
      (.error ()) (.error ()) false c2wDb2 2 c2wRow rfl rfl
      (by rintro ⟨q, m, h1, h2⟩; exact absurd h1 (by decide))
  · rfl

theorem roundHalfEven_intCast (n : Int) : roundHalfEven ((n : ℚ)) = n := by
  unfold roundHalfEven
  rw [Int.floor_intCast]
  rw [if_pos (by norm_num)]

def c3xTxPayload : Json := Json.obj [("response", Json.arr
  [Json.obj [("transaction_id", Json.str "t1"), ("sum", Json.num 7)]])]

def c3xSpots : Json := Json.obj [("response", Json.obj [("revenue", Json.num (-1))])]

def c3xRow : DailyReportRow :=
  match importDaily dbEmpty 5 (.ok c3xTxPayload) (.ok emptyObj) (.error ()) (.ok c3xSpots)
      (.error ()) false with
  | .ok p =>
    match lookupDaily p.1.dailyReports 5 with
    | some r => r
    | none => mkDailyRow 5 (0, 0, 0) Json.null Json.null Json.null
  | .error _ => mkDailyRow 5 (0, 0, 0) Json.null Json.null Json.null

/-- C3 counterexample: the spots-sales response is a dict carrying a
`revenue` key (value -1), so by the claim the rollup revenue should be
`round(-1 * 100) = -100`; but the `total_revenue_eur >= 0` guard skips the
override and the step-6 raw figure 7 stands. -/
theorem c3_counterexample :
    c3xRow.revenue = 7 ∧ c3xRow.transactions_count = 1 ∧
    roundHalfEven ((-1 : ℚ) * 100) = -100 := by
  refine ⟨rfl, rfl, ?_⟩
  rw [show ((-1 : ℚ) * 100) = ((-100 : Int) : ℚ) by norm_num, roundHalfEven_intCast]

/-- C3 (amended): the dict-shaped aggregate overrides the step-6 figures
only when its `revenue` value parses and is non-negative (revenue becomes
the value times 100 rounded to nearest, count comes from `clients` or
`transactions_count`, the average from `middle_invoice` times 100 when
present and parseable, else re-derived); the list-shaped aggregate
overrides only when the summed revenue is non-negative; in every other
case — negative totals included — the step-6 raw figures stand. -/
theorem c3_reconciliation_paths (db : Db) (d : Int)
    (txR payR prodR spotsR listR : Except Unit Json) (incl : Bool)
    (db2 : Db) (n : Int) (row : DailyReportRow) (txV : Json) (rev : Int)
    (h : importDaily db d txR payR prodR spotsR listR incl = .ok (db2, n))
    (htx : txR = .ok txV)
    (hsums : sumsOf (extract_transactions txV) = .ok rev)
    (hrow : lookupDaily db2.dailyReports d = some row) :
    (∀ q : ℚ, ((optVal spotsR).objGet "response").isObj = true →
      (((optVal spotsR).objGet "response").objGet "revenue").isNull = false →
      pyFloat? (pyOr (((optVal spotsR).objGet "response").objGet "revenue")
        (Json.num 0)) = some q →
      ((0 ≤ q →
          row.revenue = roundHalfEven (q * 100) ∧
          row.transactions_count = dictCount ((optVal spotsR).objGet "response") ∧
          row.avg_check = dictAvg ((optVal spotsR).objGet "response")
            (roundHalfEven (q * 100)) (dictCount ((optVal spotsR).objGet "response"))) ∧
       (q < 0 →
          row.revenue = rev ∧
          row.transactions_count = ((extract_transactions txV).length : Int) ∧
          row.avg_check = derive rev ((extract_transactions txV).length : Int)))) ∧
    (∀ rows tr tc, (optVal spotsR).objGet "response" = Json.arr rows →
      listTotals rows = .ok (tr, tc) →
      ((0 ≤ tr →
          row.revenue = tr ∧ row.transactions_count = tc ∧ row.avg_check = derive tr tc) ∧
       (tr < 0 →
          row.revenue = rev ∧
          row.transactions_count = ((extract_transactions txV).length : Int) ∧
          row.avg_check = derive rev ((extract_transactions txV).length : Int)))) ∧
    (((optVal spotsR).isObj = false ∨
       ((((optVal spotsR).objGet "response").isObj = false ∨
         (((optVal spotsR).objGet "response").objGet "revenue").isNull = true) ∧
        ∀ rows, (optVal spotsR).objGet "response" ≠ Json.arr rows)) →
      row.revenue = rev ∧
      row.transactions_count = ((extract_transactions txV).length : Int) ∧
      row.avg_check = derive rev ((extract_transactions txV).length : Int)) := by
  rcases importDaily_ok_parts db d txR payR prodR spotsR listR incl db2 n h with
    ⟨txV2, payV, rev2, ts, rca, htx2, hpay, hsums2, hup, htrans, hrec, hn, hlook⟩
  rw [htx] at htx2
  injection htx2 with htxeq
  subst htxeq
  rw [hsums] at hsums2
  injection hsums2 with hreveq
  subst hreveq
  rw [hrow] at hlook
  injection hlook with hroweq
  subst hroweq
  by_cases hobj : (optVal spotsR).isObj = true
  · refine ⟨?_, ?_, ?_⟩
    · intro q hro hnn hq
      have hcond : (((optVal spotsR).objGet "response").isObj
          && !(((optVal spotsR).objGet "response").objGet "revenue").isNull) = true := by
        rw [hro, hnn]
        rfl
      rw [reconcile_dict _ _ _ _ q hobj hcond hq] at hrec
      constructor
      · intro hq0
        rw [if_pos hq0] at hrec
        injection hrec with h2
        rw [← h2]
        exact ⟨rfl, rfl, rfl⟩
      · intro hq0
        rw [if_neg (not_le.mpr hq0)] at hrec
        injection hrec with h2
        rw [← h2]
        exact ⟨rfl, rfl, rfl⟩
    · intro rows tr tc hresp htot
      rw [reconcile_list _ _ _ _ rows tr tc hobj hresp htot] at hrec
      constructor
      · intro htr
        rw [if_pos htr] at hrec
        injection hrec with h2
        rw [← h2]
        exact ⟨rfl, rfl, rfl⟩
      · intro htr
        rw [if_neg (not_le.mpr htr)] at hrec
        injection hrec with h2
        rw [← h2]
        exact ⟨rfl, rfl, rfl⟩
    · rintro (hbad | ⟨hcond, harr⟩)
      · exact absurd hobj (by rw [hbad]; simp)
      · have hcond2 : (((optVal spotsR).objGet "response").isObj
            && !(((optVal spotsR).objGet "response").objGet "revenue").isNull) = false := by
          rcases hcond with hc | hc
          · rw [hc]
            rfl
          · rw [hc]
            simp
        rw [reconcile_raw _ _ _ _ hobj hcond2 harr] at hrec
        injection hrec with h2
        rw [← h2]
        exact ⟨rfl, rfl, rfl⟩
  · have hobj2 : (optVal spotsR).isObj = false := by
      cases h5 : (optVal spotsR).isObj
      · rfl
      · exact absurd h5 hobj
    rw [reconcile_notObj _ _ _ _ hobj2] at hrec
    injection hrec with h2
    refine ⟨?_, ?_, ?_⟩
    · intro q hro _ _
      exfalso
      cases hov : optVal spotsR with
      | obj kvs => rw [hov] at hobj2; simp [Json.isObj] at hobj2
      | null =>
        rw [hov] at hro
        simp [Json.objGet, Json.objGet?] at hro
        exact absurd hro (by simp [Json.isObj])
      | bool b =>
        rw [hov] at hro
        exact absurd hro (by simp [Json.objGet, Json.objGet?, Json.isObj])
      | num q2 =>
        rw [hov] at hro
        exact absurd hro (by simp [Json.objGet, Json.objGet?, Json.isObj])
      | str v =>
        rw [hov] at hro
        exact absurd hro (by simp [Json.objGet, Json.objGet?, Json.isObj])
      | arr l =>
        rw [hov] at hro
        exact absurd hro (by simp [Json.objGet, Json.objGet?, Json.isObj])
    · intro rows tr tc hresp _
      exfalso
      cases hov : optVal spotsR with
      | obj kvs => rw [hov] at hobj2; simp [Json.isObj] at hobj2
      | null =>
        rw [hov] at hresp
        exact absurd hresp (by simp [Json.objGet, Json.objGet?])
      | bool b =>
        rw [hov] at hresp
        exact absurd hresp (by simp [Json.objGet, Json.objGet?])
      | num q2 =>
        rw [hov] at hresp
        exact absurd hresp (by simp [Json.objGet, Json.objGet?])
      | str v =>
        rw [hov] at hresp
        exact absurd hresp (by simp [Json.objGet, Json.objGet?])
      | arr l =>
        rw [hov] at hresp
        exact absurd hresp (by simp [Json.objGet, Json.objGet?])
    · intro _
      rw [← h2]
      exact ⟨rfl, rfl, rfl⟩

def c3wSpots : Json := Json.obj
  [("response", Json.obj [("revenue", Json.num 12), ("clients", Json.num 5)])]

def c3wTs : List TransactionRow :=
  [txRowOf (Json.obj [("transaction_id", Json.str "t1"), ("sum", Json.num 7)])]

def c3wRca : Int × Int × Int :=
  (roundHalfEven ((12 : ℚ) * 100), dictCount (c3wSpots.objGet "response"),
   dictAvg (c3wSpots.objGet "response") (roundHalfEven ((12 : ℚ) * 100))
     (dictCount (c3wSpots.objGet "response")))

def c3wDb2 : Db := importFinish dbEmpty 5 c3wTs c3xTxPayload emptyObj emptyObj c3wSpots c3wRca

def c3wRow : DailyReportRow := mkDailyRow 5 c3wRca c3xTxPayload emptyObj emptyObj

theorem c3wRun : importDaily dbEmpty 5 (.ok c3xTxPayload) (.ok emptyObj) (.error ())
    (.ok c3wSpots) (.error ()) false = .ok (c3wDb2, c3wRca.2.1) := by
  unfold importDaily
  rw [show syncSpots dbEmpty (.error ()) = Except.ok dbEmpty from rfl]
  dsimp only
  rw [show sumsOf (extract_transactions c3xTxPayload) = Except.ok 7 from rfl]
  dsimp only
  rw [show upsertTransactions dbEmpty.transactions (extract_transactions c3xTxPayload) =
    Except.ok c3wTs from rfl]
  dsimp only
  rw [show optVal (Except.ok c3wSpots) = c3wSpots from rfl]
  rw [reconcile_dict c3wSpots _ _ _ 12 rfl rfl rfl]
  rw [if_pos (by norm_num : (0 : ℚ) ≤ 12)]
  rfl

/-- Witness for the amended C3 on a dict-shaped aggregate with integer
revenue 12 (major units) and 5 clients: the rollup becomes 1200 minor
units over 5 transactions, overriding the raw figure 7. -/
theorem c3_reconciliation_paths_witness :
    c3wRow.revenue = roundHalfEven ((12 : ℚ) * 100) ∧
    c3wRow.transactions_count = dictCount (c3wSpots.objGet "response") ∧
    c3wRow.avg_check = dictAvg (c3wSpots.objGet "response") (roundHalfEven ((12 : ℚ) * 100))
      (dictCount (c3wSpots.objGet "response")) ∧
    roundHalfEven ((12 : ℚ) * 100) = 1200 ∧
    dictCount (c3wSpots.objGet "response") = 5 := by
  have h1 := (c3_reconciliation_paths dbEmpty 5 (.ok c3xTxPayload) (.ok emptyObj) (.error ())
    (.ok c3wSpots) (.error ()) false c3wDb2 c3wRca.2.1 c3wRow c3xTxPayload 7 c3wRun rfl rfl
    (importFinish_lookup dbEmpty 5 c3wTs c3xTxPayload emptyObj emptyObj c3wSpots c3wRca)).1
    (12 : ℚ) rfl rfl rfl
  rcases h1.1 (by norm_num) with ⟨ha, hb, hc⟩
  refine ⟨ha, hb, hc, ?_, rfl⟩
  rw [show ((12 : ℚ) * 100) = ((1200 : Int) : ℚ) by norm_num, roundHalfEven_intCast]

theorem sumsOf_not_api (l : List Json) : sumsOf l ≠ .error ImpErr.apiError := by
  induction l with
  | nil => simp [sumsOf]
  | cons it rest ih =>
    simp only [sumsOf]
    by_cases hobj : it.isObj = true
    · rw [if_pos hobj]
      cases h : sumsOf rest with
      | ok v =>
        simp
      | error e =>
        dsimp only
        intro hcontra
        injection hcontra with h2
        subst h2
        exact ih h
    · rw [if_neg hobj]
      simp

theorem upsertTransactions_not_api (items : List Json) :
    ∀ ts, upsertTransactions ts items ≠ .error ImpErr.apiError := by
  induction items with
  | nil =>
    intro ts
    simp [upsertTransactions]
  | cons it rest ih =>
    intro ts
    simp only [upsertTransactions]
    by_cases hobj : it.isObj = true
    · rw [if_pos hobj]
      by_cases hid : txIdStr it = ""
      · rw [if_pos hid]
        exact ih ts
      · rw [if_neg hid]
        exact ih _
    · rw [if_neg hobj]
      simp

theorem syncSpotRows_not_api (rows : List Json) :
    ∀ sp, syncSpotRows sp rows ≠ .error ImpErr.apiError := by
  induction rows with
  | nil =>
    intro sp
    simp [syncSpotRows]
  | cons row rest ih =>
    intro sp
    simp only [syncSpotRows]
    by_cases hobj : row.isObj = true
    · rw [if_pos hobj]
      by_cases hc : strOrEmpty (row.objGet "spot_id") ≠ "" ∧ strOrEmpty (row.objGet "name") ≠ ""
      · rw [if_pos hc]
        exact ih _
      · rw [if_neg hc]
        exact ih sp
    · rw [if_neg hobj]
      simp

theorem syncSpots_not_api (db : Db) (listR : Except Unit Json) :
    syncSpots db listR ≠ .error ImpErr.apiError := by
  unfold syncSpots
  cases listR with
  | error u => simp
  | ok v =>
    dsimp only
    by_cases hobj : v.isObj = true
    · rw [if_pos hobj]
      cases hresp : v.objGet "response" with
      | arr rows =>
        dsimp only
        cases h : syncSpotRows db.spots rows with
        | ok sp =>
          simp
        | error e =>
          dsimp only
          intro hcontra
          injection hcontra with h2
          subst h2
          exact syncSpotRows_not_api rows db.spots h
      | null => simp
      | bool b => simp
      | num q => simp
      | str s2 => simp
      | obj kvs => simp
    · rw [if_neg hobj]
      simp

theorem listTotals_not_api (rows : List Json) : listTotals rows ≠ .error ImpErr.apiError := by
  induction rows with
  | nil => simp [listTotals]
  | cons row rest ih =>
    simp only [listTotals]
    by_cases hobj : row.isObj = true
    · rw [if_pos hobj]
      cases h : listTotals rest with
      | ok rc => simp
      | error e =>
        dsimp only
        intro hcontra
        injection hcontra with h2
        subst h2
        exact ih h
    · rw [if_neg hobj]
      simp

theorem reconcile_not_api (s : Json) (rev cnt avg : Int) :
    reconcile s rev cnt avg ≠ .error ImpErr.apiError := by
  unfold reconcile
  by_cases hobj : s.isObj = true
  · rw [if_pos hobj]
    by_cases hcond : ((s.objGet "response").isObj
        && !((s.objGet "response").objGet "revenue").isNull) = true
    · rw [if_pos hcond]
      cases hq : pyFloat? (pyOr ((s.objGet "response").objGet "revenue") (Json.num 0)) with
      | none => simp
      | some q =>
        dsimp only
        by_cases hq0 : 0 ≤ q
        · rw [if_pos hq0]
          simp
        · rw [if_neg hq0]
          simp
    · rw [if_neg hcond]
      cases hresp : s.objGet "response" with
      | arr rows =>
        dsimp only
        cases h : listTotals rows with
        | ok rc =>
          dsimp only
          by_cases hr0 : 0 ≤ rc.1
          · rw [if_pos hr0]
            simp
          · rw [if_neg hr0]
            simp
        | error e =>
          dsimp only
          intro hcontra
          injection hcontra with h2
          subst h2
          exact listTotals_not_api rows h
      | null => simp
      | bool b => simp
      | num q => simp
      | str s2 => simp
      | obj kvs => simp
  · rw [if_neg hobj]
    simp

theorem reconcile_emptyObj (rev cnt avg : Int) :
    reconcile emptyObj rev cnt avg = .ok (rev, cnt, avg) := rfl

theorem sumsOf_ok_of_obj (l : List Json) (h : ∀ it ∈ l, it.isObj = true) :
    ∃ r, sumsOf l = .ok r := by
  induction l with
  | nil => exact ⟨0, rfl⟩
  | cons it rest ih =>
    rcases ih (fun x hx => h x (List.mem_cons_of_mem _ hx)) with ⟨r, hr⟩
    refine ⟨safe_int (it.objGet "sum") + r, ?_⟩
    simp only [sumsOf]
    rw [if_pos (h it (List.mem_cons_self _ _)), hr]

theorem upsertTransactions_ok_of_obj (items : List Json) :
    ∀ ts, (∀ it ∈ items, it.isObj = true) →
      ∃ ts2, upsertTransactions ts items = .ok ts2 := by
  induction items with
  | nil =>
    intro ts _
    exact ⟨ts, rfl⟩
  | cons it rest ih =>
    intro ts h
    simp only [upsertTransactions]
    rw [if_pos (h it (List.mem_cons_self _ _))]
    by_cases hid : txIdStr it = ""
    · rw [if_pos hid]
      exact ih ts (fun x hx => h x (List.mem_cons_of_mem _ hx))
    · rw [if_neg hid]
      exact ih _ (fun x hx => h x (List.mem_cons_of_mem _ hx))

/-- C4: an import run raises `PosterAPIError` exactly when the transactions
fetch or the payments fetch failed (and then before any write); a failure
of the three optional fetches never aborts — with the required fetches
succeeding and their transaction entries well-formed dicts, the run with
all three optional fetches failing completes. -/
theorem c4_fetch_failure_policy (db : Db) (d : Int)
    (txR payR prodR spotsR listR : Except Unit Json) (incl : Bool) :
    (importDaily db d txR payR prodR spotsR listR incl = .error ImpErr.apiError ↔
      (txR = .error () ∨ payR = .error ())) ∧
    (∀ txV payV, txR = .ok txV → payR = .ok payV →
      (∀ it ∈ extract_transactions txV, it.isObj = true) →
      ∃ db2 n, importDaily db d txR payR (.error ()) (.error ()) (.error ()) incl =
        .ok (db2, n)) := by
  constructor
  · cases txR with
    | error u =>
      cases u
      exact Iff.intro (fun _ => Or.inl rfl) (fun _ => rfl)
    | ok txV =>
      cases payR with
      | error u =>
        cases u
        exact Iff.intro (fun _ => Or.inr rfl) (fun _ => rfl)
      | ok payV =>
        constructor
        · intro hcontra
          exfalso
          unfold importDaily at hcontra
          dsimp only at hcontra
          cases hsync : syncSpots db listR with
          | error e =>
            rw [hsync] at hcontra
            dsimp only at hcontra
            injection hcontra with h2
            subst h2
            exact syncSpots_not_api db listR hsync
          | ok db1 =>
            rw [hsync] at hcontra
            dsimp only at hcontra
            cases hs : sumsOf (extract_transactions txV) with
            | error e =>
              rw [hs] at hcontra
              dsimp only at hcontra
              injection hcontra with h2
              subst h2
              exact sumsOf_not_api _ hs
            | ok rev =>
              rw [hs] at hcontra
              dsimp only at hcontra
              cases hu : upsertTransactions db1.transactions (extract_transactions txV) with
              | error e =>
                rw [hu] at hcontra
                dsimp only at hcontra
                injection hcontra with h2
                subst h2
                exact upsertTransactions_not_api _ _ hu
              | ok ts =>
                rw [hu] at hcontra
                dsimp only at hcontra
                cases hr : reconcile (optVal spotsR) rev
                    ((extract_transactions txV).length : Int)
                    (derive rev ((extract_transactions txV).length : Int)) with
                | error e =>
                  rw [hr] at hcontra
                  dsimp only at hcontra
                  injection hcontra with h2
                  subst h2
                  exact reconcile_not_api _ _ _ _ hr
                | ok rca =>
                  rw [hr] at hcontra
                  dsimp only at hcontra
                  exact absurd hcontra (by simp)
        · rintro (h1 | h1) <;> exact absurd h1 (by simp)
  · intro txV payV htx hpay hobjs
    subst htx
    subst hpay
    rcases sumsOf_ok_of_obj _ hobjs with ⟨rev, hs⟩
    rcases upsertTransactions_ok_of_obj _ db.transactions hobjs with ⟨ts, hu⟩
    refine ⟨importFinish db d ts txV payV (productsVal incl (Except.error ())) emptyObj
      (rev, ((extract_transactions txV).length : Int),
        derive rev ((extract_transactions txV).length : Int)),
      ((extract_transactions txV).length : Int), ?_⟩
    unfold importDaily
    dsimp only
    rw [show syncSpots db (Except.error ()) = Except.ok db from rfl]
    dsimp only
    rw [hs]
    dsimp only
    rw [hu]
    dsimp only
    rw [show optVal (Except.error () : Except Unit Json) = emptyObj from rfl,
      reconcile_emptyObj]

def c4wTxPayload : Json := Json.obj [("response", Json.arr
  [Json.obj [("transaction_id", Json.str "t1"), ("sum", Json.num 250)]])]

/-- Witness for C4 at concrete inputs: a failing transactions fetch aborts
with `apiError`; with both required fetches succeeding and all optional
fetches failing, the import completes. -/
theorem c4_fetch_failure_policy_witness :
    importDaily dbEmpty 5 (.error ()) (.ok emptyObj) (.error ()) (.error ()) (.error ())
      false = .error ImpErr.apiError ∧
    ∃ db2 n, importDaily dbEmpty 5 (.ok c4wTxPayload) (.ok emptyObj) (.error ()) (.error ())
      (.error ()) false = .ok (db2, n) := by
  constructor
  · exact ((c4_fetch_failure_policy dbEmpty 5 (.error ()) (.ok emptyObj) (.error ())
      (.error ()) (.error ()) false).1).mpr (Or.inl rfl)
  · exact (c4_fetch_failure_policy dbEmpty 5 (.ok c4wTxPayload) (.ok emptyObj) (.error ())
      (.error ()) (.error ()) false).2 c4wTxPayload emptyObj rfl rfl (by decide)

theorem mem_idsOf (ts : List TransactionRow) (id : String) :
    id ∈ idsOf ts ↔ ∃ r ∈ ts, r.transaction_id = id := by
  simp [idsOf, List.mem_map]

theorem parse_ms_none_iff (v : Json) :
    parse_ms v = none ↔ (pyInt? v = none ∨ ∃ m, pyInt? v = some m ∧ m ≤ 0) := by
  unfold parse_ms
  cases h : pyInt? v with
  | none => simp
  | some m =>
    dsimp only
    by_cases hm : m ≤ 0
    · rw [if_pos hm]
      constructor
      · intro _
        exact Or.inr ⟨m, rfl, hm⟩
      · intro _
        rfl
    · rw [if_neg hm]
      constructor
      · intro hc
        exact absurd hc (by simp)
      · rintro (hc | ⟨m2, hm2, hle⟩)
        · exact absurd hc (by simp)
        · injection hm2 with h3
          subst h3
          exact absurd hle hm

theorem parse_ms_pos (v : Json) (m : Int) (h : parse_ms v = some m) : 0 < m := by
  unfold parse_ms at h
  cases h2 : pyInt? v with
  | none =>
    rw [h2] at h
    simp at h
  | some m2 =>
    rw [h2] at h
    dsimp only at h
    by_cases hm : m2 ≤ 0
    · rw [if_pos hm] at h
      simp at h
    · rw [if_neg hm] at h
      injection h with h3
      subst h3
      omega

/-- C8: under a successful import, the transaction table's identifiers are
exactly the old ones plus the identifiers of the fetched entries that have
one (entries lacking an identifier leave no row); identifier uniqueness is
preserved (no duplicates); every row is an old row or the upsert image of a
fetched entry; and a stored start/close timestamp is `parse_ms` of the raw
millisecond value — absent whenever that value is non-numeric or ≤ 0,
positive whenever present (never epoch zero). -/
theorem c8_transaction_upsert (db : Db) (d : Int)
    (txR payR prodR spotsR listR : Except Unit Json) (incl : Bool)
    (db2 : Db) (n : Int) (txV : Json)
    (h : importDaily db d txR payR prodR spotsR listR incl = .ok (db2, n))
    (htx : txR = .ok txV) :
    (∀ id, id ≠ "" →
      ((∃ r ∈ db2.transactions, r.transaction_id = id) ↔
       (∃ r ∈ db.transactions, r.transaction_id = id) ∨
       ∃ it ∈ extract_transactions txV, txIdStr it = id)) ∧
    ((idsOf db.transactions).Nodup → (idsOf db2.transactions).Nodup) ∧
    (∀ r ∈ db2.transactions, r ∈ db.transactions ∨
      ∃ it ∈ extract_transactions txV, it.isObj = true ∧ txIdStr it ≠ "" ∧ r = txRowOf it) ∧
    (∀ it : Json, (txRowOf it).date_start = parse_ms (it.objGet "date_start") ∧
      (txRowOf it).date_close = parse_ms (it.objGet "date_close")) ∧
    (∀ v : Json, (pyInt? v = none ∨ ∃ m, pyInt? v = some m ∧ m ≤ 0) → parse_ms v = none) ∧
    (∀ v m, parse_ms v = some m → 0 < m) := by
  rcases importDaily_ok_parts db d txR payR prodR spotsR listR incl db2 n h with
    ⟨txV2, payV, rev, ts, rca, htx2, hpay, hsums, hup, htrans, hrec, hn, hlook⟩
  rw [htx] at htx2
  injection htx2 with htxeq
  subst htxeq
  refine ⟨?_, ?_, ?_, fun it => ⟨rfl, rfl⟩, fun v hv => (parse_ms_none_iff v).mpr hv,
    parse_ms_pos⟩
  · intro id hid
    rw [htrans]
    rw [← mem_idsOf, ← mem_idsOf]
    rw [upsertTransactions_ids _ _ _ hup id]
    constructor
    · rintro (h1 | ⟨it, h2, _, h4⟩)
      · exact Or.inl h1
      · exact Or.inr ⟨it, h2, h4⟩
    · rintro (h1 | ⟨it, h2, h4⟩)
      · exact Or.inl h1
      · exact Or.inr ⟨it, h2, h4 ▸ hid, h4⟩
  · intro hnd
    rw [htrans]
    exact upsertTransactions_nodup _ _ _ hup hnd
  · intro r hr
    rw [htrans] at hr
    exact upsertTransactions_mem _ _ _ hup r hr

def c8wTxPayload : Json := Json.obj [("response", Json.arr
  [Json.obj [("transaction_id", Json.str "t1"), ("sum", Json.num 100),
             ("date_start", Json.num 432000001), ("date_close", Json.num 0)],
   Json.obj [("sum", Json.num 55)],
   Json.obj [("transaction_id", Json.str "t1"), ("sum", Json.num 200),
             ("date_start", Json.arr []), ("date_close", Json.num 0)]])]

def c8wDb2 : Db :=
  match importDaily dbEmpty 5 (.ok c8wTxPayload) (.ok emptyObj) (.error ()) (.error ())
      (.error ()) false with
  | .ok p => p.1
  | .error _ => dbEmpty

def c8wN : Int :=
  match importDaily dbEmpty 5 (.ok c8wTxPayload) (.ok emptyObj) (.error ()) (.error ())
      (.error ()) false with
  | .ok p => p.2
  | .error _ => -1

/-- Witness for C8 on a payload with a duplicate identifier, an entry
lacking an identifier, a zero close-timestamp and a non-numeric
(list-valued) start-timestamp; additionally the resulting table is the single upserted
row (no duplicate, no row for the id-less entry). -/
theorem c8_transaction_upsert_witness :
    ((∀ id, id ≠ "" →
      ((∃ r ∈ c8wDb2.transactions, r.transaction_id = id) ↔
       (∃ r ∈ dbEmpty.transactions, r.transaction_id = id) ∨
       ∃ it ∈ extract_transactions c8wTxPayload, txIdStr it = id)) ∧
    ((idsOf dbEmpty.transactions).Nodup → (idsOf c8wDb2.transactions).Nodup) ∧
    (∀ r ∈ c8wDb2.transactions, r ∈ dbEmpty.transactions ∨
      ∃ it ∈ extract_transactions c8wTxPayload, it.isObj = true ∧ txIdStr it ≠ "" ∧
        r = txRowOf it) ∧
    (∀ it : Json, (txRowOf it).date_start = parse_ms (it.objGet "date_start") ∧
      (txRowOf it).date_close = parse_ms (it.objGet "date_close")) ∧
    (∀ v : Json, (pyInt? v = none ∨ ∃ m, pyInt? v = some m ∧ m ≤ 0) → parse_ms v = none) ∧
    (∀ v m, parse_ms v = some m → 0 < m)) ∧
    idsOf c8wDb2.transactions = ["t1"] ∧
    (c8wDb2.transactions.map (fun r => (r.date_start, r.date_close))) = [(none, none)] := by
  refine ⟨c8_transaction_upsert dbEmpty 5 (.ok c8wTxPayload) (.ok emptyObj) (.error ())
    (.error ()) (.error ()) false c8wDb2 c8wN c8wTxPayload rfl rfl, rfl, rfl⟩
